import Mathlib

/-!
Verification development for `ThinWalls.py` (thin-wall topography).

Arrays are modelled as total functions `ℕ → ℕ → ℚ` together with an explicit
shape `(rows, cols)`; every statement about a mesh is made inside the shape
bounds.  Elevation values are opaque real scalars in the source; we use `ℚ`
so that all operations (min/max/means) are exact and decidable.

A vectorized numpy statement of the form
  `A[r::2, c::2][mask] = rhs[mask]`
(i.e. a strided-slice assignment at fine indices `(2j+r, 2i+c)` for the
coarse indices `(j,i)` selected by `numpy.nonzero(mask)`) is modelled by the
combinator `vset` below; the right-hand side is evaluated against the arrays
as they stand *before* the statement, exactly as numpy does.
-/

namespace ThinWallTopo

/-- A numpy-style 2-D array: a shape and the values. -/
structure Arr2 where
  shape : ℕ × ℕ
  f : ℕ → ℕ → ℚ

/-- One vectorized masked strided assignment
`A[2j+r, 2i+c] := rhs j i` for all coarse `(j,i)` with `mask j i`. -/
def vset (r c : ℕ) (mask : ℕ → ℕ → Prop) [∀ j i, Decidable (mask j i)]
    (rhs : ℕ → ℕ → ℚ) (A : ℕ → ℕ → ℚ) : ℕ → ℕ → ℚ :=
  fun a b =>
    if r ≤ a ∧ c ≤ b ∧ (a - r) % 2 = 0 ∧ (b - c) % 2 = 0 ∧ mask ((a - r) / 2) ((b - c) / 2)
    then rhs ((a - r) / 2) ((b - c) / 2)
    else A a b

/-- Value of `vset` at a selected position. -/
theorem vset_at (r c : ℕ) (mask : ℕ → ℕ → Prop) [∀ j i, Decidable (mask j i)]
    (rhs A : ℕ → ℕ → ℚ) (j i : ℕ) (h : mask j i) :
    vset r c mask rhs A (2 * j + r) (2 * i + c) = rhs j i := by
  have h1 : 2 * j + r - r = 2 * j := by omega
  have h2 : 2 * i + c - c = 2 * i := by omega
  have h3 : 2 * j / 2 = j := by omega
  have h4 : 2 * i / 2 = i := by omega
  simp only [vset, h1, h2, h3, h4]
  rw [if_pos ⟨by omega, by omega, by omega, by omega, h⟩]

/-- Value of `vset` at a position the statement does not select. -/
theorem vset_not (r c : ℕ) (mask : ℕ → ℕ → Prop) [∀ j i, Decidable (mask j i)]
    (rhs A : ℕ → ℕ → ℚ) (a b : ℕ)
    (h : ¬ (r ≤ a ∧ c ≤ b ∧ (a - r) % 2 = 0 ∧ (b - c) % 2 = 0 ∧
        mask ((a - r) / 2) ((b - c) / 2))) :
    vset r c mask rhs A a b = A a b := by
  simp only [vset]
  rw [if_neg h]

/-- A `vset` whose mask selects nothing is the identity on the array. -/
theorem vset_empty (mask : ℕ → ℕ → Prop) [∀ j i, Decidable (mask j i)]
    (h : ∀ j i, ¬ mask j i) (r c : ℕ) (rhs A : ℕ → ℕ → ℚ) :
    vset r c mask rhs A = A := by
  funext a b
  apply vset_not
  rintro ⟨-, -, -, -, hm⟩
  exact h _ _ hm

/-- If every selected write stores a value at most the old one, `vset`
never raises any element. -/
theorem vset_le_self (r c : ℕ) (mask : ℕ → ℕ → Prop) [∀ j i, Decidable (mask j i)]
    (rhs A : ℕ → ℕ → ℚ)
    (h : ∀ j i, mask j i → rhs j i ≤ A (2 * j + r) (2 * i + c)) :
    ∀ a b, vset r c mask rhs A a b ≤ A a b := by
  intro a b
  unfold vset
  split
  · next hc =>
    obtain ⟨h1, h2, h3, h4, h5⟩ := hc
    have ha : 2 * ((a - r) / 2) + r = a := by omega
    have hb : 2 * ((b - c) / 2) + c = b := by omega
    have := h _ _ h5
    rw [ha, hb] at this
    exact this
  · exact le_refl _

/-- If every selected write stores a value at least the old one, `vset`
never lowers any element. -/
theorem vset_ge_self (r c : ℕ) (mask : ℕ → ℕ → Prop) [∀ j i, Decidable (mask j i)]
    (rhs A : ℕ → ℕ → ℚ)
    (h : ∀ j i, mask j i → A (2 * j + r) (2 * i + c) ≤ rhs j i) :
    ∀ a b, A a b ≤ vset r c mask rhs A a b := by
  intro a b
  unfold vset
  split
  · next hc =>
    obtain ⟨h1, h2, h3, h4, h5⟩ := hc
    have ha : 2 * ((a - r) / 2) + r = a := by omega
    have hb : 2 * ((b - c) / 2) + c = b := by omega
    have := h _ _ h5
    rw [ha, hb] at this
    exact this
  · exact le_refl _

/-- Stats container (`ThinWalls.py` lines 4-19): a shape and the three
arrays `low` (minimum), `hgh` (maximum), `ave` (mean), in source order. -/
structure Stats where
  shape : ℕ × ℕ
  low : ℕ → ℕ → ℚ
  hgh : ℕ → ℕ → ℚ
  ave : ℕ → ℕ → ℚ

/-- The all-zero arrays a `Stats` starts from (`numpy.zeros(shape)`). -/
def Stats.zeros (shape : ℕ × ℕ) : Stats :=
  ⟨shape, fun _ _ => 0, fun _ _ => 0, fun _ _ => 0⟩

/-- `Stats.set_equal` (lines 34-38): shape-checked, then sets
`ave = low = hgh = values`.  The failed `assert` is modelled as `none`. -/
def Stats.set_equal (s : Stats) (values : Arr2) : Option Stats :=
  if values.shape = s.shape then
    some { s with ave := values.f, low := values.f, hgh := values.f }
  else none

/-- `Stats.set` (lines 39-45): all three shapes are asserted before any
field is assigned, then `ave = mean`, `low = min`, `hgh = max`. -/
def Stats.set (s : Stats) (mn mx mean : Arr2) : Option Stats :=
  if mn.shape = s.shape ∧ mx.shape = s.shape ∧ mean.shape = s.shape then
    some { s with ave := mean.f, low := mn.f, hgh := mx.f }
  else none

/-- Helper for the optional keyword arguments of `Stats.__init__`:
`if arg is not None: self.set_equal(arg)`. -/
def Stats.setEqualOpt (s : Stats) (arg : Option Arr2) : Option Stats :=
  match arg with
  | none => some s
  | some v => s.set_equal v

/-- `Stats.__init__` (lines 12-19): zero arrays, then `set_equal(mean)`,
`set_equal(min)`, `set_equal(max)`, in that order, each only when the
argument was supplied.  Note each call overwrites all three arrays. -/
def Stats.init (shape : ℕ × ℕ) (mean mn mx : Option Arr2) : Option Stats := do
  let s0 := Stats.zeros shape
  let s1 ← s0.setEqualOpt mean
  let s2 ← s1.setEqualOpt mn
  s2.setEqualOpt mx

/-- `Stats.__copy__` (lines 22-23):
`Stats(self.shape, mean=self.ave, min=self.low, max=self.hgh)`. -/
def Stats.copy (s : Stats) : Option Stats :=
  Stats.init s.shape (some ⟨s.shape, s.ave⟩) (some ⟨s.shape, s.low⟩)
    (some ⟨s.shape, s.hgh⟩)

/-- What `Stats.copy` actually produces: the three `set_equal` calls each
overwrite all three arrays, so the last (`max=self.hgh`) wins. -/
theorem Stats.copy_eq (s : Stats) :
    s.copy = some ⟨s.shape, s.hgh, s.hgh, s.hgh⟩ := by
  simp [Stats.copy, Stats.init, Stats.setEqualOpt, Stats.set_equal, Stats.zeros,
    bind, Option.bind]

/-- `Stats.mean4` (lines 46-48): 2d/4-point mean, `0.25 = 1/4` exactly. -/
def Stats.mean4 (s : Stats) : ℕ → ℕ → ℚ := fun j i =>
  (1 / 4 : ℚ) * ((s.ave (2 * j) (2 * i) + s.ave (2 * j + 1) (2 * i + 1)) +
    (s.ave (2 * j) (2 * i + 1) + s.ave (2 * j + 1) (2 * i)))

/-- `Stats.min4` (lines 49-52). -/
def Stats.min4 (s : Stats) : ℕ → ℕ → ℚ := fun j i =>
  min (min (s.low (2 * j) (2 * i)) (s.low (2 * j + 1) (2 * i + 1)))
    (min (s.low (2 * j) (2 * i + 1)) (s.low (2 * j + 1) (2 * i)))

/-- `Stats.max4` (lines 53-56). -/
def Stats.max4 (s : Stats) : ℕ → ℕ → ℚ := fun j i =>
  max (max (s.hgh (2 * j) (2 * i)) (s.hgh (2 * j + 1) (2 * i + 1)))
    (max (s.hgh (2 * j) (2 * i + 1)) (s.hgh (2 * j + 1) (2 * i)))

/-- `Stats.mean2u` (lines 57-59): mean of vertically adjacent pairs, even
columns only (`0.5 = 1/2` exactly). -/
def Stats.mean2u (s : Stats) : ℕ → ℕ → ℚ := fun j i =>
  (1 / 2 : ℚ) * (s.ave (2 * j) (2 * i) + s.ave (2 * j + 1) (2 * i))

/-- `Stats.min2u` (lines 60-62). -/
def Stats.min2u (s : Stats) : ℕ → ℕ → ℚ := fun j i =>
  min (s.low (2 * j) (2 * i)) (s.low (2 * j + 1) (2 * i))

/-- `Stats.max2u` (lines 63-65). -/
def Stats.max2u (s : Stats) : ℕ → ℕ → ℚ := fun j i =>
  max (s.hgh (2 * j) (2 * i)) (s.hgh (2 * j + 1) (2 * i))

/-- `Stats.mean2v` (lines 66-68): mean of horizontally adjacent pairs,
even rows only. -/
def Stats.mean2v (s : Stats) : ℕ → ℕ → ℚ := fun j i =>
  (1 / 2 : ℚ) * (s.ave (2 * j) (2 * i) + s.ave (2 * j) (2 * i + 1))

/-- `Stats.min2v` (lines 69-71). -/
def Stats.min2v (s : Stats) : ℕ → ℕ → ℚ := fun j i =>
  min (s.low (2 * j) (2 * i)) (s.low (2 * j) (2 * i + 1))

/-- `Stats.max2v` (lines 72-74). -/
def Stats.max2v (s : Stats) : ℕ → ℕ → ℚ := fun j i =>
  max (s.hgh (2 * j) (2 * i)) (s.hgh (2 * j) (2 * i + 1))

/-- Reverse a function array along the first axis; numpy takes the extent
from the array itself, our function model receives it explicitly. -/
def flip0 (rows : ℕ) (f : ℕ → ℕ → ℚ) : ℕ → ℕ → ℚ :=
  fun a b => f (rows - 1 - a) b

/-- Reverse a function array along the second axis. -/
def flip1 (cols : ℕ) (f : ℕ → ℕ → ℚ) : ℕ → ℕ → ℚ :=
  fun a b => f a (cols - 1 - b)

/-- `Stats.flip(axis=0)` (lines 75-79): flips the three arrays; the stored
shape is untouched. -/
def Stats.flipJ (s : Stats) (rows : ℕ) : Stats :=
  { s with low := flip0 rows s.low, ave := flip0 rows s.ave, hgh := flip0 rows s.hgh }

/-- `Stats.flip(axis=1)`. -/
def Stats.flipI (s : Stats) (cols : ℕ) : Stats :=
  { s with low := flip1 cols s.low, ave := flip1 cols s.ave, hgh := flip1 cols s.hgh }

/-- `Stats.transpose` (lines 80-85): transposes the three arrays; the
stored `shape` is *not* updated (the source line doing so is commented out). -/
def Stats.transpose (s : Stats) : Stats :=
  { s with
    low := fun a b => s.low b a
    ave := fun a b => s.ave b a
    hgh := fun a b => s.hgh b a }

/-- ThinWalls mesh state (`ThinWalls.py` lines 87-110).  The external GMesh
base class supplies the cell counts `nj`, `ni` (coordinate arrays carry no
elevation semantics and are omitted).  Six `Stats` triples live here. -/
structure ThinWalls where
  nj : ℕ
  ni : ℕ
  c_simple : Stats
  u_simple : Stats
  v_simple : Stats
  c_effective : Stats
  u_effective : Stats
  v_effective : Stats

/-- Cell-centre shape `(nj, ni)`. -/
def ThinWalls.shape (tw : ThinWalls) : ℕ × ℕ := (tw.nj, tw.ni)

/-- u-edge shape `(nj, ni+1)` (line 103). -/
def ThinWalls.shapeu (tw : ThinWalls) : ℕ × ℕ := (tw.nj, tw.ni + 1)

/-- v-edge shape `(nj+1, ni)` (line 104). -/
def ThinWalls.shapev (tw : ThinWalls) : ℕ × ℕ := (tw.nj + 1, tw.ni)

/-- `ThinWalls.__init__` (lines 100-110): all six triples are constructed
as zero-filled `Stats` of the appropriate shapes. -/
def ThinWalls.mkMesh (nj ni : ℕ) : ThinWalls :=
  ⟨nj, ni,
    Stats.zeros (nj, ni), Stats.zeros (nj, ni + 1), Stats.zeros (nj + 1, ni),
    Stats.zeros (nj, ni), Stats.zeros (nj, ni + 1), Stats.zeros (nj + 1, ni)⟩

/-- `ThinWalls.set_cell_mean` (lines 135-138). -/
def ThinWalls.set_cell_mean (tw : ThinWalls) (data : Arr2) : Option ThinWalls :=
  if data.shape = tw.shape then
    (tw.c_simple.set_equal data).map fun c => { tw with c_simple := c }
  else none

/-- `ThinWalls.set_edge_mean` (lines 139-145); the source calls
`u_simple.set_equal(datau)` twice, which we reproduce. -/
def ThinWalls.set_edge_mean (tw : ThinWalls) (datau datav : Arr2) : Option ThinWalls :=
  if datau.shape = tw.shapeu ∧ datav.shape = tw.shapev then do
    let u1 ← tw.u_simple.set_equal datau
    let u2 ← u1.set_equal datau
    let v1 ← tw.v_simple.set_equal datav
    some { tw with u_simple := u2, v_simple := v1 }
  else none

/-- `ThinWalls.init_effective_values` (lines 146-150): the effective
triples become `Stats.copy` of the simple ones. -/
def ThinWalls.init_effective_values (tw : ThinWalls) : Option ThinWalls := do
  let c ← tw.c_simple.copy
  let u ← tw.u_simple.copy
  let v ← tw.v_simple.copy
  some { tw with c_effective := c, u_effective := u, v_effective := v }

/-- `ThinWalls.__copy__` (lines 111-118): builds and populates a new mesh
but has no `return` statement, so the Python call returns `None`.  The
outer `Option` is the exception layer (the `Stats.copy` calls), the inner
`Option ThinWalls` is the function's return value. -/
def ThinWalls.copyMethod (tw : ThinWalls) : Option (Option ThinWalls) := do
  let c ← tw.c_simple.copy
  let u ← tw.u_simple.copy
  let v ← tw.v_simple.copy
  let ce ← tw.c_effective.copy
  let ue ← tw.u_effective.copy
  let ve ← tw.v_effective.copy
  let _copy : ThinWalls :=
    { ThinWalls.mkMesh tw.nj tw.ni with
      c_simple := c, u_simple := u, v_simple := v,
      c_effective := ce, u_effective := ue, v_effective := ve }
  some none

/-- Sill of the inner SW corner (line 203):
`min(U.low[::2,1::2], V.low[1::2,::2])`. -/
def ThinWalls.sw_crnr_min (tw : ThinWalls) (j i : ℕ) : ℚ :=
  min (tw.u_effective.low (2 * j) (2 * i + 1)) (tw.v_effective.low (2 * j + 1) (2 * i))

/-- Mean for the SW corner (line 204). -/
def ThinWalls.sw_crnr_mean (tw : ThinWalls) (j i : ℕ) : ℚ :=
  (1 / 2 : ℚ) * (tw.u_effective.ave (2 * j) (2 * i + 1) + tw.v_effective.ave (2 * j + 1) (2 * i))

/-- Max for the SW corner (line 205). -/
def ThinWalls.sw_crnr_max (tw : ThinWalls) (j i : ℕ) : ℚ :=
  max (tw.u_effective.hgh (2 * j) (2 * i + 1)) (tw.v_effective.hgh (2 * j + 1) (2 * i))

/-- Ridge for the NE corner (line 207):
`max(U.low[1::2,1::2], V.low[1::2,1::2])`. -/
def ThinWalls.sw_opp_ridge (tw : ThinWalls) (j i : ℕ) : ℚ :=
  max (tw.u_effective.low (2 * j + 1) (2 * i + 1)) (tw.v_effective.low (2 * j + 1) (2 * i + 1))

/-- Mean of the three non-SW cells of the block (line 208). -/
def ThinWalls.sw_opp_cmean (tw : ThinWalls) (j i : ℕ) : ℚ :=
  ((tw.c_effective.ave (2 * j) (2 * i + 1) + tw.c_effective.ave (2 * j + 1) (2 * i)) +
    tw.c_effective.ave (2 * j + 1) (2 * i + 1)) / 3

/-- Selection of line 209: coarse blocks (inside the coarse extent) whose
SW corner sill is strictly taller than the opposing NE ridge. -/
def ThinWalls.sw_mask (tw : ThinWalls) (j i : ℕ) : Prop :=
  j < tw.nj / 2 ∧ i < tw.ni / 2 ∧ tw.sw_crnr_min j i > tw.sw_opp_ridge j i

instance (tw : ThinWalls) (j i : ℕ) : Decidable (tw.sw_mask j i) := by
  unfold ThinWalls.sw_mask
  infer_instance

/-- `ThinWalls.push_corners_sw` (lines 193-235), transcribed statement by
statement; all the corner quantities are evaluated before any write. -/
def ThinWalls.push_corners_sw (tw : ThinWalls) (update_interior_mean_max : Bool) :
    ThinWalls :=
  let C := tw.c_effective
  let U := tw.u_effective
  let V := tw.v_effective
  let mask := tw.sw_mask
  -- U.low[J,I+1] = opp_ridge[j,i] ; V.low[J+1,I] = opp_ridge[j,i]
  let Ulow := vset 0 1 mask (tw.sw_opp_ridge) U.low
  let Vlow := vset 1 0 mask (tw.sw_opp_ridge) V.low
  -- U.low[J,I] = max(U.low[J,I], crnr_min) ; V.low[J,I] likewise
  let Ulow := vset 0 0 mask (fun j i => max (Ulow (2 * j) (2 * i)) (tw.sw_crnr_min j i)) Ulow
  let Vlow := vset 0 0 mask (fun j i => max (Vlow (2 * j) (2 * i)) (tw.sw_crnr_min j i)) Vlow
  -- U.ave[J,I] = max(U.ave[J,I], crnr_mean) ; V.ave[J,I] likewise
  let Uave := vset 0 0 mask (fun j i => max (U.ave (2 * j) (2 * i)) (tw.sw_crnr_mean j i)) U.ave
  let Vave := vset 0 0 mask (fun j i => max (V.ave (2 * j) (2 * i)) (tw.sw_crnr_mean j i)) V.ave
  -- U.hgh[J,I] = max(U.hgh[J,I], crnr_max) ; V.hgh[J,I] likewise
  let Uhgh := vset 0 0 mask (fun j i => max (U.hgh (2 * j) (2 * i)) (tw.sw_crnr_max j i)) U.hgh
  let Vhgh := vset 0 0 mask (fun j i => max (V.hgh (2 * j) (2 * i)) (tw.sw_crnr_max j i)) V.hgh
  -- C.low[J,I] = opp_ridge[j,i]
  let Clow := vset 0 0 mask (tw.sw_opp_ridge) C.low
  -- the block guarded by update_interior_mean_max (lines 227-235)
  let Cave := cond update_interior_mean_max
    (vset 0 0 mask (fun j i => max (C.ave (2 * j) (2 * i)) (tw.sw_opp_cmean j i)) C.ave) C.ave
  let Chgh := cond update_interior_mean_max
    (vset 0 0 mask (fun j i => max (C.hgh (2 * j) (2 * i)) (tw.sw_opp_ridge j i)) C.hgh) C.hgh
  let Uave := cond update_interior_mean_max (vset 0 1 mask (tw.sw_opp_ridge) Uave) Uave
  let Vave := cond update_interior_mean_max (vset 1 0 mask (tw.sw_opp_ridge) Vave) Vave
  let Uhgh := cond update_interior_mean_max (vset 0 1 mask (tw.sw_opp_ridge) Uhgh) Uhgh
  let Vhgh := cond update_interior_mean_max (vset 1 0 mask (tw.sw_opp_ridge) Vhgh) Vhgh
  { tw with
    c_effective := { C with low := Clow, ave := Cave, hgh := Chgh }
    u_effective := { U with low := Ulow, ave := Uave, hgh := Uhgh }
    v_effective := { V with low := Vlow, ave := Vave, hgh := Vhgh } }

/-- Flip the three effective triples along axis 0 (rows).  numpy reads each
array's row count from the array; here `C` and `U` have `nj` rows and `V`
has `nj+1` rows. -/
def ThinWalls.flip_effective0 (tw : ThinWalls) : ThinWalls :=
  { tw with
    c_effective := tw.c_effective.flipJ tw.nj
    u_effective := tw.u_effective.flipJ tw.nj
    v_effective := tw.v_effective.flipJ (tw.nj + 1) }

/-- Flip the three effective triples along axis 1 (columns): `C` and `V`
have `ni` columns and `U` has `ni+1` columns. -/
def ThinWalls.flip_effective1 (tw : ThinWalls) : ThinWalls :=
  { tw with
    c_effective := tw.c_effective.flipI tw.ni
    u_effective := tw.u_effective.flipI (tw.ni + 1)
    v_effective := tw.v_effective.flipI tw.ni }

/-- Transpose the three effective triples.  numpy carries the transposed
shapes inside the arrays; in the function model the mesh extents `nj`, `ni`
swap correspondingly. -/
def ThinWalls.transpose_effective (tw : ThinWalls) : ThinWalls :=
  { tw with
    nj := tw.ni
    ni := tw.nj
    c_effective := tw.c_effective.transpose
    u_effective := tw.u_effective.transpose
    v_effective := tw.v_effective.transpose }

/-- `self.u_effective, self.v_effective = self.v_effective, self.u_effective`. -/
def ThinWalls.swap_uv_effective (tw : ThinWalls) : ThinWalls :=
  { tw with u_effective := tw.v_effective, v_effective := tw.u_effective }

/-- `ThinWalls.push_corners` (lines 163-192): the SW kernel is applied to
all four corners by flipping the effective triples in place. -/
def ThinWalls.push_corners (tw : ThinWalls) (update_interior_mean_max : Bool) :
    ThinWalls :=
  let tw := tw.push_corners_sw update_interior_mean_max
  let tw := tw.flip_effective0
  let tw := tw.push_corners_sw update_interior_mean_max  -- Push NW
  let tw := tw.flip_effective1
  let tw := tw.push_corners_sw update_interior_mean_max  -- Push NE
  let tw := tw.flip_effective0
  let tw := tw.push_corners_sw update_interior_mean_max  -- Push SE
  tw.flip_effective1

/-- Competitors of the S ridge around a block's central node (line 241):
`max(U[1::2,1::2], max(V[1::2,::2], V[1::2,1::2]))`. -/
def oppo3S (U V : ℕ → ℕ → ℚ) (j i : ℕ) : ℚ :=
  max (U (2 * j + 1) (2 * i + 1)) (max (V (2 * j + 1) (2 * i)) (V (2 * j + 1) (2 * i + 1)))

/-- Competitors of the N ridge (line 245). -/
def oppo3N (U V : ℕ → ℕ → ℚ) (j i : ℕ) : ℚ :=
  max (U (2 * j) (2 * i + 1)) (max (V (2 * j + 1) (2 * i)) (V (2 * j + 1) (2 * i + 1)))

/-- Competitors of the W ridge (line 249). -/
def oppo3W (U V : ℕ → ℕ → ℚ) (j i : ℕ) : ℚ :=
  max (V (2 * j + 1) (2 * i + 1)) (max (U (2 * j) (2 * i + 1)) (U (2 * j + 1) (2 * i + 1)))

/-- Competitors of the E ridge (line 253). -/
def oppo3E (U V : ℕ → ℕ → ℚ) (j i : ℕ) : ℚ :=
  max (V (2 * j + 1) (2 * i)) (max (U (2 * j) (2 * i + 1)) (U (2 * j + 1) (2 * i + 1)))

/-- Lines 241-243: lower the S ridge where it beats its three competitors. -/
def bpassS (m n : ℕ) (U V : ℕ → ℕ → ℚ) : ℕ → ℕ → ℚ :=
  vset 0 1 (fun j i => j < m ∧ i < n ∧ U (2 * j) (2 * i + 1) > oppo3S U V j i)
    (oppo3S U V) U

/-- Lines 245-247: lower the N ridge (reads the array updated by `bpassS`). -/
def bpassN (m n : ℕ) (U V : ℕ → ℕ → ℚ) : ℕ → ℕ → ℚ :=
  vset 1 1 (fun j i => j < m ∧ i < n ∧ U (2 * j + 1) (2 * i + 1) > oppo3N U V j i)
    (oppo3N U V) U

/-- Lines 249-251: lower the W ridge. -/
def bpassW (m n : ℕ) (U V : ℕ → ℕ → ℚ) : ℕ → ℕ → ℚ :=
  vset 1 0 (fun j i => j < m ∧ i < n ∧ V (2 * j + 1) (2 * i) > oppo3W U V j i)
    (oppo3W U V) V

/-- Lines 253-255: lower the E ridge (reads the array updated by `bpassW`). -/
def bpassE (m n : ℕ) (U V : ℕ → ℕ → ℚ) : ℕ → ℕ → ℚ :=
  vset 1 1 (fun j i => j < m ∧ i < n ∧ V (2 * j + 1) (2 * i + 1) > oppo3E U V j i)
    (oppo3E U V) V

/-- The four sequential ridge-lowering statements of
`lower_tallest_buttress`, applied to one `(U, V)` array pair; executed once
for the `low` arrays (lines 239-255) and once, identically, for the `ave`
arrays (lines 257-273). -/
def buttress_pass (m n : ℕ) (U V : ℕ → ℕ → ℚ) : (ℕ → ℕ → ℚ) × (ℕ → ℕ → ℚ) :=
  let U1 := bpassS m n U V
  let U2 := bpassN m n U1 V
  let V1 := bpassW m n U2 V
  let V2 := bpassE m n U2 V1
  (U2, V2)

/-- `ThinWalls.lower_tallest_buttress` (lines 236-273): acts on the `low`
and `ave` arrays of the effective edge triples; `hgh` and the cell triple
are never written. -/
def ThinWalls.lower_tallest_buttress (tw : ThinWalls) : ThinWalls :=
  let m := tw.nj / 2
  let n := tw.ni / 2
  let lowP := buttress_pass m n tw.u_effective.low tw.v_effective.low
  let aveP := buttress_pass m n tw.u_effective.ave tw.v_effective.ave
  { tw with
    u_effective := { tw.u_effective with low := lowP.1, ave := aveP.1 }
    v_effective := { tw.v_effective with low := lowP.2, ave := aveP.2 } }

/-- Line 313: `min(V.low[1::2,::2], V.low[1::2,1::2])`. -/
def ThinWalls.ew_ridge_low (tw : ThinWalls) (j i : ℕ) : ℚ :=
  min (tw.v_effective.low (2 * j + 1) (2 * i)) (tw.v_effective.low (2 * j + 1) (2 * i + 1))

/-- Line 316: `min(U.low[::2,1::2], U.low[1::2,1::2])`. -/
def ThinWalls.ns_ridge_low_min (tw : ThinWalls) (j i : ℕ) : ℚ :=
  min (tw.u_effective.low (2 * j) (2 * i + 1)) (tw.u_effective.low (2 * j + 1) (2 * i + 1))

/-- Line 317: `max(U.low[::2,1::2], U.low[1::2,1::2])`. -/
def ThinWalls.ns_ridge_low_max (tw : ThinWalls) (j i : ℕ) : ℚ :=
  max (tw.u_effective.low (2 * j) (2 * i + 1)) (tw.u_effective.low (2 * j + 1) (2 * i + 1))

/-- Selection of lines 319-328: the E-W ridge is the taller central ridge
and the southern half is the taller half to expand to. -/
def ThinWalls.ridgeS_mask (tw : ThinWalls) (j i : ℕ) : Prop :=
  j < tw.nj / 2 ∧ i < tw.ni / 2 ∧
  ((tw.ew_ridge_low j i > tw.ns_ridge_low_min j i ∧
    tw.ew_ridge_low j i ≥ tw.ns_ridge_low_max j i) ∧
   (tw.u_effective.low (2 * j) (2 * i + 1) > tw.u_effective.low (2 * j + 1) (2 * i + 1) ∨
    (tw.u_effective.low (2 * j) (2 * i + 1) ≥ tw.u_effective.low (2 * j + 1) (2 * i + 1) ∧
     (tw.c_effective.low (2 * j) (2 * i) + tw.c_effective.low (2 * j) (2 * i + 1) >
        tw.c_effective.low (2 * j + 1) (2 * i) + tw.c_effective.low (2 * j + 1) (2 * i + 1) ∨
      tw.v_effective.low (2 * j) (2 * i) + tw.v_effective.low (2 * j) (2 * i + 1) >
        tw.v_effective.low (2 * j + 2) (2 * i) + tw.v_effective.low (2 * j + 2) (2 * i + 1)))))

instance (tw : ThinWalls) (j i : ℕ) : Decidable (tw.ridgeS_mask j i) := by
  unfold ThinWalls.ridgeS_mask
  infer_instance

/-- `ThinWalls.fold_out_central_ridge_s` (lines 308-341), transcribed
statement by statement. -/
def ThinWalls.fold_out_central_ridge_s (tw : ThinWalls) : ThinWalls :=
  let C := tw.c_effective
  let U := tw.u_effective
  let V := tw.v_effective
  let mask := tw.ridgeS_mask
  -- Outer edges of southern half (lines 331-334)
  let Ulow := vset 0 0 mask (fun j i => max (U.low (2 * j) (2 * i)) (tw.ew_ridge_low j i)) U.low
  let Vlow := vset 0 0 mask (fun j i => max (V.low (2 * j) (2 * i)) (tw.ew_ridge_low j i)) V.low
  let Vlow := vset 0 1 mask (fun j i => max (Vlow (2 * j) (2 * i + 1)) (tw.ew_ridge_low j i)) Vlow
  let Ulow := vset 0 2 mask (fun j i => max (Ulow (2 * j) (2 * i + 2)) (tw.ew_ridge_low j i)) Ulow
  -- Replace E-W ridge (lines 336-337)
  let Vlow := vset 1 0 mask (tw.ns_ridge_low_min) Vlow
  let Vlow := vset 1 1 mask (tw.ns_ridge_low_min) Vlow
  -- Southern cells (lines 339-341)
  let Clow := vset 0 0 mask (tw.ns_ridge_low_min) C.low
  let Clow := vset 0 1 mask (tw.ns_ridge_low_min) Clow
  let Ulow := vset 0 1 mask (tw.ns_ridge_low_min) Ulow
  { tw with
    c_effective := { C with low := Clow }
    u_effective := { U with low := Ulow }
    v_effective := { V with low := Vlow } }

/-- `ThinWalls.fold_out_central_ridges` (lines 274-307): the southern
kernel reused for all four orientations via in-place flips, transposes and
u/v swaps of the effective triples. -/
def ThinWalls.fold_out_central_ridges (tw : ThinWalls) : ThinWalls :=
  let tw := tw.fold_out_central_ridge_s
  let tw := tw.flip_effective0
  let tw := tw.fold_out_central_ridge_s
  let tw := tw.transpose_effective
  let tw := tw.swap_uv_effective
  let tw := tw.fold_out_central_ridge_s
  let tw := tw.flip_effective0
  let tw := tw.fold_out_central_ridge_s
  let tw := tw.transpose_effective
  let tw := tw.swap_uv_effective
  let tw := tw.flip_effective0
  tw.flip_effective1

/-- Exterior deep corner SW (line 347):
`max(U.low[::2,:-1:2], V.low[:-1:2,::2])`. -/
def ThinWalls.d_sw (tw : ThinWalls) (j i : ℕ) : ℚ :=
  max (tw.u_effective.low (2 * j) (2 * i)) (tw.v_effective.low (2 * j) (2 * i))

/-- Exterior deep corner SE (line 348). -/
def ThinWalls.d_se (tw : ThinWalls) (j i : ℕ) : ℚ :=
  max (tw.u_effective.low (2 * j) (2 * i + 2)) (tw.v_effective.low (2 * j) (2 * i + 1))

/-- Exterior deep corner NW (line 349). -/
def ThinWalls.d_nw (tw : ThinWalls) (j i : ℕ) : ℚ :=
  max (tw.u_effective.low (2 * j + 1) (2 * i)) (tw.v_effective.low (2 * j + 2) (2 * i))

/-- Exterior deep corner NE (line 350). -/
def ThinWalls.d_ne (tw : ThinWalls) (j i : ℕ) : ℚ :=
  max (tw.u_effective.low (2 * j + 1) (2 * i + 2)) (tw.v_effective.low (2 * j + 2) (2 * i + 1))

/-- Interior sill SW (line 353). -/
def ThinWalls.s_sw (tw : ThinWalls) (j i : ℕ) : ℚ :=
  min (tw.u_effective.low (2 * j) (2 * i + 1)) (tw.v_effective.low (2 * j + 1) (2 * i))

/-- Interior sill SE (line 354). -/
def ThinWalls.s_se (tw : ThinWalls) (j i : ℕ) : ℚ :=
  min (tw.u_effective.low (2 * j) (2 * i + 1)) (tw.v_effective.low (2 * j + 1) (2 * i + 1))

/-- Interior sill NW (line 355). -/
def ThinWalls.s_nw (tw : ThinWalls) (j i : ℕ) : ℚ :=
  min (tw.u_effective.low (2 * j + 1) (2 * i + 1)) (tw.v_effective.low (2 * j + 1) (2 * i))

/-- Interior sill NE (line 356). -/
def ThinWalls.s_ne (tw : ThinWalls) (j i : ℕ) : ℚ :=
  min (tw.u_effective.low (2 * j + 1) (2 * i + 1)) (tw.v_effective.low (2 * j + 1) (2 * i + 1))

/-- Diagonal ridge from the SW corner (line 358). -/
def ThinWalls.r_sw (tw : ThinWalls) (j i : ℕ) : ℚ :=
  max (tw.u_effective.low (2 * j) (2 * i + 1)) (tw.v_effective.low (2 * j + 1) (2 * i))

/-- Diagonal ridge from the SE corner (line 359). -/
def ThinWalls.r_se (tw : ThinWalls) (j i : ℕ) : ℚ :=
  max (tw.u_effective.low (2 * j) (2 * i + 1)) (tw.v_effective.low (2 * j + 1) (2 * i + 1))

/-- Diagonal ridge from the NW corner (line 360). -/
def ThinWalls.r_nw (tw : ThinWalls) (j i : ℕ) : ℚ :=
  max (tw.u_effective.low (2 * j + 1) (2 * i + 1)) (tw.v_effective.low (2 * j + 1) (2 * i))

/-- Diagonal ridge from the NE corner (line 361). -/
def ThinWalls.r_ne (tw : ThinWalls) (j i : ℕ) : ℚ :=
  max (tw.u_effective.low (2 * j + 1) (2 * i + 1)) (tw.v_effective.low (2 * j + 1) (2 * i + 1))

/-- Line 365: SW is the deepest exterior corner and deeper than its sill. -/
def ThinWalls.inv_sw_mask (tw : ThinWalls) (j i : ℕ) : Prop :=
  j < tw.nj / 2 ∧ i < tw.ni / 2 ∧
  tw.d_sw j i < min (tw.d_ne j i) (min (tw.d_nw j i) (tw.d_se j i)) ∧
  tw.d_sw j i < tw.s_sw j i

/-- Line 369: SE is the deepest exterior corner and deeper than its sill. -/
def ThinWalls.inv_se_mask (tw : ThinWalls) (j i : ℕ) : Prop :=
  j < tw.nj / 2 ∧ i < tw.ni / 2 ∧
  tw.d_se j i < min (tw.d_nw j i) (min (tw.d_ne j i) (tw.d_sw j i)) ∧
  tw.d_se j i < tw.s_se j i

/-- Line 373: NE is the deepest exterior corner and deeper than its sill. -/
def ThinWalls.inv_ne_mask (tw : ThinWalls) (j i : ℕ) : Prop :=
  j < tw.nj / 2 ∧ i < tw.ni / 2 ∧
  tw.d_ne j i < min (tw.d_sw j i) (min (tw.d_se j i) (tw.d_nw j i)) ∧
  tw.d_ne j i < tw.s_ne j i

/-- Line 377: NW is the deepest exterior corner and deeper than its sill. -/
def ThinWalls.inv_nw_mask (tw : ThinWalls) (j i : ℕ) : Prop :=
  j < tw.nj / 2 ∧ i < tw.ni / 2 ∧
  tw.d_nw j i < min (tw.d_se j i) (min (tw.d_sw j i) (tw.d_ne j i)) ∧
  tw.d_nw j i < tw.s_nw j i

instance (tw : ThinWalls) (j i : ℕ) : Decidable (tw.inv_sw_mask j i) := by
  unfold ThinWalls.inv_sw_mask
  infer_instance

instance (tw : ThinWalls) (j i : ℕ) : Decidable (tw.inv_se_mask j i) := by
  unfold ThinWalls.inv_se_mask
  infer_instance

instance (tw : ThinWalls) (j i : ℕ) : Decidable (tw.inv_ne_mask j i) := by
  unfold ThinWalls.inv_ne_mask
  infer_instance

instance (tw : ThinWalls) (j i : ℕ) : Decidable (tw.inv_nw_mask j i) := by
  unfold ThinWalls.inv_nw_mask
  infer_instance

/-- `ThinWalls.invert_exterior_corners` (lines 342-457), transcribed
statement by statement.  The corner quantities and the four masks are all
computed from the arrays as they stand on entry; the writes then happen in
source order, each reading the arrays as they stand at that statement.
Note the NW branch (line 432) and the NE branch (line 452) read
`V.low[J+1,...]` (an interior wall just deepened in the same branch)
where the SW/SE branches read back the destination `V.low[J+2,...]`. -/
def ThinWalls.invert_exterior_corners (tw : ThinWalls) : ThinWalls :=
  let C := tw.c_effective
  let U := tw.u_effective
  let V := tw.v_effective
  -- Apply SW (lines 380-397)
  let mSW := tw.inv_sw_mask
  let Ulow := vset 0 1 mSW (fun j i => min (U.low (2 * j) (2 * i + 1)) (tw.d_sw j i)) U.low
  let Ulow := vset 1 1 mSW (fun j i => min (Ulow (2 * j + 1) (2 * i + 1)) (tw.d_sw j i)) Ulow
  let Vlow := vset 1 0 mSW (fun j i => min (V.low (2 * j + 1) (2 * i)) (tw.d_sw j i)) V.low
  let Vlow := vset 1 1 mSW (fun j i => min (Vlow (2 * j + 1) (2 * i + 1)) (tw.d_sw j i)) Vlow
  let Clow := vset 0 0 mSW (fun j i => min (C.low (2 * j) (2 * i)) (tw.d_sw j i)) C.low
  let Clow := vset 0 1 mSW (fun j i => min (Clow (2 * j) (2 * i + 1)) (tw.d_sw j i)) Clow
  let Clow := vset 1 0 mSW (fun j i => min (Clow (2 * j + 1) (2 * i)) (tw.d_sw j i)) Clow
  let Clow := vset 1 1 mSW (fun j i => min (Clow (2 * j + 1) (2 * i + 1)) (tw.d_sw j i)) Clow
  -- new_ridge = min(r_se, r_nw)
  let Vlow := vset 0 1 mSW (fun j i => max (Vlow (2 * j) (2 * i + 1)) (tw.r_se j i)) Vlow
  let Ulow := vset 0 2 mSW (fun j i => max (Ulow (2 * j) (2 * i + 2)) (tw.r_se j i)) Ulow
  let Ulow := vset 1 2 mSW
    (fun j i => max (Ulow (2 * j + 1) (2 * i + 2)) (min (tw.r_se j i) (tw.r_nw j i))) Ulow
  let Vlow := vset 2 1 mSW
    (fun j i => max (Vlow (2 * j + 2) (2 * i + 1)) (min (tw.r_se j i) (tw.r_nw j i))) Vlow
  let Vlow := vset 2 0 mSW (fun j i => max (Vlow (2 * j + 2) (2 * i)) (tw.r_nw j i)) Vlow
  let Ulow := vset 1 0 mSW (fun j i => max (Ulow (2 * j + 1) (2 * i)) (tw.r_nw j i)) Ulow
  -- Apply SE (lines 400-417)
  let mSE := tw.inv_se_mask
  let Ulow := vset 0 1 mSE (fun j i => min (Ulow (2 * j) (2 * i + 1)) (tw.d_se j i)) Ulow
  let Ulow := vset 1 1 mSE (fun j i => min (Ulow (2 * j + 1) (2 * i + 1)) (tw.d_se j i)) Ulow
  let Vlow := vset 1 0 mSE (fun j i => min (Vlow (2 * j + 1) (2 * i)) (tw.d_se j i)) Vlow
  let Vlow := vset 1 1 mSE (fun j i => min (Vlow (2 * j + 1) (2 * i + 1)) (tw.d_se j i)) Vlow
  let Clow := vset 0 0 mSE (fun j i => min (Clow (2 * j) (2 * i)) (tw.d_se j i)) Clow
  let Clow := vset 0 1 mSE (fun j i => min (Clow (2 * j) (2 * i + 1)) (tw.d_se j i)) Clow
  let Clow := vset 1 0 mSE (fun j i => min (Clow (2 * j + 1) (2 * i)) (tw.d_se j i)) Clow
  let Clow := vset 1 1 mSE (fun j i => min (Clow (2 * j + 1) (2 * i + 1)) (tw.d_se j i)) Clow
  -- new_ridge = min(r_sw, r_ne)
  let Vlow := vset 0 0 mSE (fun j i => max (Vlow (2 * j) (2 * i)) (tw.r_sw j i)) Vlow
  let Ulow := vset 0 0 mSE (fun j i => max (Ulow (2 * j) (2 * i)) (tw.r_sw j i)) Ulow
  let Ulow := vset 1 0 mSE
    (fun j i => max (Ulow (2 * j + 1) (2 * i)) (min (tw.r_sw j i) (tw.r_ne j i))) Ulow
  let Vlow := vset 2 0 mSE
    (fun j i => max (Vlow (2 * j + 2) (2 * i)) (min (tw.r_sw j i) (tw.r_ne j i))) Vlow
  let Vlow := vset 2 1 mSE (fun j i => max (Vlow (2 * j + 2) (2 * i + 1)) (tw.r_ne j i)) Vlow
  let Ulow := vset 1 2 mSE (fun j i => max (Ulow (2 * j + 1) (2 * i + 2)) (tw.r_ne j i)) Ulow
  -- Apply NW (lines 420-437)
  let mNW := tw.inv_nw_mask
  let Ulow := vset 0 1 mNW (fun j i => min (Ulow (2 * j) (2 * i + 1)) (tw.d_nw j i)) Ulow
  let Ulow := vset 1 1 mNW (fun j i => min (Ulow (2 * j + 1) (2 * i + 1)) (tw.d_nw j i)) Ulow
  let Vlow := vset 1 0 mNW (fun j i => min (Vlow (2 * j + 1) (2 * i)) (tw.d_nw j i)) Vlow
  let Vlow := vset 1 1 mNW (fun j i => min (Vlow (2 * j + 1) (2 * i + 1)) (tw.d_nw j i)) Vlow
  let Clow := vset 0 0 mNW (fun j i => min (Clow (2 * j) (2 * i)) (tw.d_nw j i)) Clow
  let Clow := vset 0 1 mNW (fun j i => min (Clow (2 * j) (2 * i + 1)) (tw.d_nw j i)) Clow
  let Clow := vset 1 0 mNW (fun j i => min (Clow (2 * j + 1) (2 * i)) (tw.d_nw j i)) Clow
  let Clow := vset 1 1 mNW (fun j i => min (Clow (2 * j + 1) (2 * i + 1)) (tw.d_nw j i)) Clow
  -- line 432 reads V.low[J+1,I+1], not the destination V.low[J+2,I+1]
  let Vlow := vset 2 1 mNW (fun j i => max (Vlow (2 * j + 1) (2 * i + 1)) (tw.r_ne j i)) Vlow
  let Ulow := vset 1 2 mNW (fun j i => max (Ulow (2 * j + 1) (2 * i + 2)) (tw.r_ne j i)) Ulow
  let Ulow := vset 0 2 mNW
    (fun j i => max (Ulow (2 * j) (2 * i + 2)) (min (tw.r_ne j i) (tw.r_sw j i))) Ulow
  let Vlow := vset 0 1 mNW
    (fun j i => max (Vlow (2 * j) (2 * i + 1)) (min (tw.r_ne j i) (tw.r_sw j i))) Vlow
  let Vlow := vset 0 0 mNW (fun j i => max (Vlow (2 * j) (2 * i)) (tw.r_sw j i)) Vlow
  let Ulow := vset 0 0 mNW (fun j i => max (Ulow (2 * j) (2 * i)) (tw.r_sw j i)) Ulow
  -- Apply NE (lines 440-457)
  let mNE := tw.inv_ne_mask
  let Ulow := vset 0 1 mNE (fun j i => min (Ulow (2 * j) (2 * i + 1)) (tw.d_ne j i)) Ulow
  let Ulow := vset 1 1 mNE (fun j i => min (Ulow (2 * j + 1) (2 * i + 1)) (tw.d_ne j i)) Ulow
  let Vlow := vset 1 0 mNE (fun j i => min (Vlow (2 * j + 1) (2 * i)) (tw.d_ne j i)) Vlow
  let Vlow := vset 1 1 mNE (fun j i => min (Vlow (2 * j + 1) (2 * i + 1)) (tw.d_ne j i)) Vlow
  let Clow := vset 0 0 mNE (fun j i => min (Clow (2 * j) (2 * i)) (tw.d_ne j i)) Clow
  let Clow := vset 0 1 mNE (fun j i => min (Clow (2 * j) (2 * i + 1)) (tw.d_ne j i)) Clow
  let Clow := vset 1 0 mNE (fun j i => min (Clow (2 * j + 1) (2 * i)) (tw.d_ne j i)) Clow
  let Clow := vset 1 1 mNE (fun j i => min (Clow (2 * j + 1) (2 * i + 1)) (tw.d_ne j i)) Clow
  -- line 452 reads V.low[J+1,I], not the destination V.low[J+2,I]
  let Vlow := vset 2 0 mNE (fun j i => max (Vlow (2 * j + 1) (2 * i)) (tw.r_nw j i)) Vlow
  let Ulow := vset 1 0 mNE (fun j i => max (Ulow (2 * j + 1) (2 * i)) (tw.r_nw j i)) Ulow
  let Ulow := vset 0 0 mNE
    (fun j i => max (Ulow (2 * j) (2 * i)) (min (tw.r_nw j i) (tw.r_se j i))) Ulow
  let Vlow := vset 0 0 mNE
    (fun j i => max (Vlow (2 * j) (2 * i)) (min (tw.r_nw j i) (tw.r_se j i))) Vlow
  let Vlow := vset 0 1 mNE (fun j i => max (Vlow (2 * j) (2 * i + 1)) (tw.r_se j i)) Vlow
  let Ulow := vset 0 2 mNE (fun j i => max (Ulow (2 * j) (2 * i + 2)) (tw.r_se j i)) Ulow
  { tw with
    c_effective := { C with low := Clow }
    u_effective := { U with low := Ulow }
    v_effective := { V with low := Vlow } }

/-- `ThinWalls.coarsen` (lines 459-479): a new mesh at half resolution
(the external GMesh constructor decimates the coordinate arrays by 2, so
the new cell counts are `nj/2`, `ni/2`), all six triples block-reduced. -/
def ThinWalls.coarsen (tw : ThinWalls) : ThinWalls :=
  let M := ThinWalls.mkMesh (tw.nj / 2) (tw.ni / 2)
  { M with
    c_simple := { M.c_simple with
      ave := tw.c_simple.mean4
      low := tw.c_simple.min4
      hgh := tw.c_simple.max4 }
    u_simple := { M.u_simple with
      ave := tw.u_simple.mean2u
      low := tw.u_simple.min2u
      hgh := tw.u_simple.max2u }
    v_simple := { M.v_simple with
      ave := tw.v_simple.mean2v
      low := tw.v_simple.min2v
      hgh := tw.v_simple.max2v }
    c_effective := { M.c_effective with
      ave := tw.c_effective.mean4
      low := tw.c_effective.min4
      hgh := tw.c_effective.max4 }
    u_effective := { M.u_effective with
      ave := tw.u_effective.mean2u
      low := tw.u_effective.min2u
      hgh := tw.u_effective.max2u }
    v_effective := { M.v_effective with
      ave := tw.v_effective.mean2v
      low := tw.v_effective.min2v
      hgh := tw.v_effective.max2v } }

/-- The four folding passes a driver may apply between coarsening steps. -/
inductive FoldOp where
  | push : FoldOp
  | buttress : FoldOp
  | ridge : FoldOp
  | invert : FoldOp

/-- Apply one folding pass (with `push_corners`' default
`update_interior_mean_max=True`). -/
def applyOp (tw : ThinWalls) (op : FoldOp) : ThinWalls :=
  match op with
  | FoldOp.push => tw.push_corners true
  | FoldOp.buttress => tw.lower_tallest_buttress
  | FoldOp.ridge => tw.fold_out_central_ridges
  | FoldOp.invert => tw.invert_exterior_corners

/-! ### Flat (constant) fields -/

/-- The constant array. -/
def constArr (v : ℚ) : ℕ → ℕ → ℚ := fun _ _ => v

/-- All three arrays of a triple are the constant `v`. -/
def Stats.isConst (s : Stats) (v : ℚ) : Prop :=
  s.low = constArr v ∧ s.hgh = constArr v ∧ s.ave = constArr v

/-- Every element of every effective triple equals `v`. -/
def ThinWalls.flatEff (tw : ThinWalls) (v : ℚ) : Prop :=
  tw.c_effective.isConst v ∧ tw.u_effective.isConst v ∧ tw.v_effective.isConst v

theorem flip0_const (r : ℕ) (v : ℚ) : flip0 r (constArr v) = constArr v := rfl

theorem flip1_const (c : ℕ) (v : ℚ) : flip1 c (constArr v) = constArr v := rfl

theorem Stats.flipJ_const (s : Stats) (v : ℚ) (r : ℕ) (h : s.isConst v) :
    (s.flipJ r).isConst v := by
  obtain ⟨h1, h2, h3⟩ := h
  exact ⟨by simp [Stats.flipJ, h1, flip0_const],
    by simp [Stats.flipJ, h2, flip0_const], by simp [Stats.flipJ, h3, flip0_const]⟩

theorem Stats.flipI_const (s : Stats) (v : ℚ) (c : ℕ) (h : s.isConst v) :
    (s.flipI c).isConst v := by
  obtain ⟨h1, h2, h3⟩ := h
  exact ⟨by simp [Stats.flipI, h1, flip1_const],
    by simp [Stats.flipI, h2, flip1_const], by simp [Stats.flipI, h3, flip1_const]⟩

theorem Stats.transpose_const (s : Stats) (v : ℚ) (h : s.isConst v) :
    s.transpose.isConst v := by
  obtain ⟨h1, h2, h3⟩ := h
  exact ⟨by simp [Stats.transpose, h1]; rfl, by simp [Stats.transpose, h2]; rfl,
    by simp [Stats.transpose, h3]; rfl⟩

theorem ThinWalls.flip_effective0_flat (tw : ThinWalls) (v : ℚ) (h : tw.flatEff v) :
    (tw.flip_effective0).flatEff v := by
  obtain ⟨hc, hu, hv⟩ := h
  exact ⟨Stats.flipJ_const _ _ _ hc, Stats.flipJ_const _ _ _ hu, Stats.flipJ_const _ _ _ hv⟩

theorem ThinWalls.flip_effective1_flat (tw : ThinWalls) (v : ℚ) (h : tw.flatEff v) :
    (tw.flip_effective1).flatEff v := by
  obtain ⟨hc, hu, hv⟩ := h
  exact ⟨Stats.flipI_const _ _ _ hc, Stats.flipI_const _ _ _ hu, Stats.flipI_const _ _ _ hv⟩

theorem ThinWalls.transpose_effective_flat (tw : ThinWalls) (v : ℚ) (h : tw.flatEff v) :
    (tw.transpose_effective).flatEff v := by
  obtain ⟨hc, hu, hv⟩ := h
  exact ⟨Stats.transpose_const _ _ hc, Stats.transpose_const _ _ hu,
    Stats.transpose_const _ _ hv⟩

theorem ThinWalls.swap_uv_effective_flat (tw : ThinWalls) (v : ℚ) (h : tw.flatEff v) :
    (tw.swap_uv_effective).flatEff v := by
  obtain ⟨hc, hu, hv⟩ := h
  exact ⟨hc, hv, hu⟩

/-- On a flat field no SW corner sill can strictly beat the opposing ridge. -/
theorem ThinWalls.sw_mask_flat (tw : ThinWalls) (v : ℚ) (h : tw.flatEff v) :
    ∀ j i, ¬ tw.sw_mask j i := by
  obtain ⟨-, ⟨hul, -, -⟩, ⟨hvl, -, -⟩⟩ := h
  rintro j i ⟨-, -, hlt⟩
  simp [ThinWalls.sw_crnr_min, ThinWalls.sw_opp_ridge, hul, hvl, constArr] at hlt

theorem ThinWalls.push_corners_sw_flat (tw : ThinWalls) (b : Bool) (v : ℚ)
    (h : tw.flatEff v) : (tw.push_corners_sw b).flatEff v := by
  have hm := tw.sw_mask_flat v h
  obtain ⟨⟨hcl, hch, hca⟩, ⟨hul, huh, hua⟩, ⟨hvl, hvh, hva⟩⟩ := h
  refine ⟨⟨?_, ?_, ?_⟩, ⟨?_, ?_, ?_⟩, ⟨?_, ?_, ?_⟩⟩ <;>
    simp only [ThinWalls.push_corners_sw, vset_empty _ hm, Bool.cond_self] <;>
    assumption

theorem ThinWalls.push_corners_flat (tw : ThinWalls) (b : Bool) (v : ℚ)
    (h : tw.flatEff v) : (tw.push_corners b).flatEff v := by
  simp only [ThinWalls.push_corners]
  apply ThinWalls.flip_effective1_flat
  apply ThinWalls.push_corners_sw_flat
  apply ThinWalls.flip_effective0_flat
  apply ThinWalls.push_corners_sw_flat
  apply ThinWalls.flip_effective1_flat
  apply ThinWalls.push_corners_sw_flat
  apply ThinWalls.flip_effective0_flat
  exact ThinWalls.push_corners_sw_flat _ _ _ h

theorem bpassS_const (m n : ℕ) (v : ℚ) :
    bpassS m n (constArr v) (constArr v) = constArr v := by
  unfold bpassS
  apply vset_empty
  rintro j i ⟨-, -, hlt⟩
  simp [oppo3S, constArr] at hlt

theorem bpassN_const (m n : ℕ) (v : ℚ) :
    bpassN m n (constArr v) (constArr v) = constArr v := by
  unfold bpassN
  apply vset_empty
  rintro j i ⟨-, -, hlt⟩
  simp [oppo3N, constArr] at hlt

theorem bpassW_const (m n : ℕ) (v : ℚ) :
    bpassW m n (constArr v) (constArr v) = constArr v := by
  unfold bpassW
  apply vset_empty
  rintro j i ⟨-, -, hlt⟩
  simp [oppo3W, constArr] at hlt

theorem bpassE_const (m n : ℕ) (v : ℚ) :
    bpassE m n (constArr v) (constArr v) = constArr v := by
  unfold bpassE
  apply vset_empty
  rintro j i ⟨-, -, hlt⟩
  simp [oppo3E, constArr] at hlt

theorem buttress_pass_const (m n : ℕ) (v : ℚ) :
    buttress_pass m n (constArr v) (constArr v) = (constArr v, constArr v) := by
  simp only [buttress_pass, bpassS_const, bpassN_const, bpassW_const, bpassE_const]

theorem ThinWalls.lower_tallest_buttress_flat (tw : ThinWalls) (v : ℚ)
    (h : tw.flatEff v) : (tw.lower_tallest_buttress).flatEff v := by
  obtain ⟨⟨hcl, hch, hca⟩, ⟨hul, huh, hua⟩, ⟨hvl, hvh, hva⟩⟩ := h
  refine ⟨⟨hcl, hch, hca⟩, ⟨?_, ?_, ?_⟩, ⟨?_, ?_, ?_⟩⟩ <;>
    simp only [ThinWalls.lower_tallest_buttress, hul, hvl, hua, hva,
      buttress_pass_const] <;>
    assumption

/-- On a flat field the E-W ridge never strictly beats the N-S sill. -/
theorem ThinWalls.ridgeS_mask_flat (tw : ThinWalls) (v : ℚ) (h : tw.flatEff v) :
    ∀ j i, ¬ tw.ridgeS_mask j i := by
  obtain ⟨-, ⟨hul, -, -⟩, ⟨hvl, -, -⟩⟩ := h
  rintro j i ⟨-, -, ⟨hlt, -⟩, -⟩
  simp [ThinWalls.ew_ridge_low, ThinWalls.ns_ridge_low_min, hul, hvl, constArr] at hlt

theorem ThinWalls.fold_out_central_ridge_s_flat (tw : ThinWalls) (v : ℚ)
    (h : tw.flatEff v) : (tw.fold_out_central_ridge_s).flatEff v := by
  have hm := tw.ridgeS_mask_flat v h
  obtain ⟨⟨hcl, hch, hca⟩, ⟨hul, huh, hua⟩, ⟨hvl, hvh, hva⟩⟩ := h
  refine ⟨⟨?_, ?_, ?_⟩, ⟨?_, ?_, ?_⟩, ⟨?_, ?_, ?_⟩⟩ <;>
    simp only [ThinWalls.fold_out_central_ridge_s, vset_empty _ hm] <;>
    assumption

theorem ThinWalls.fold_out_central_ridges_flat (tw : ThinWalls) (v : ℚ)
    (h : tw.flatEff v) : (tw.fold_out_central_ridges).flatEff v := by
  simp only [ThinWalls.fold_out_central_ridges]
  apply ThinWalls.flip_effective1_flat
  apply ThinWalls.flip_effective0_flat
  apply ThinWalls.swap_uv_effective_flat
  apply ThinWalls.transpose_effective_flat
  apply ThinWalls.fold_out_central_ridge_s_flat
  apply ThinWalls.flip_effective0_flat
  apply ThinWalls.fold_out_central_ridge_s_flat
  apply ThinWalls.swap_uv_effective_flat
  apply ThinWalls.transpose_effective_flat
  apply ThinWalls.fold_out_central_ridge_s_flat
  apply ThinWalls.flip_effective0_flat
  exact ThinWalls.fold_out_central_ridge_s_flat _ _ h

/-- On a flat field no exterior corner is strictly the deepest. -/
theorem ThinWalls.inv_sw_mask_flat (tw : ThinWalls) (v : ℚ) (h : tw.flatEff v) :
    ∀ j i, ¬ tw.inv_sw_mask j i := by
  obtain ⟨-, ⟨hul, -, -⟩, ⟨hvl, -, -⟩⟩ := h
  rintro j i ⟨-, -, hlt, -⟩
  simp [ThinWalls.d_sw, ThinWalls.d_ne, ThinWalls.d_nw, ThinWalls.d_se,
    hul, hvl, constArr] at hlt

theorem ThinWalls.inv_se_mask_flat (tw : ThinWalls) (v : ℚ) (h : tw.flatEff v) :
    ∀ j i, ¬ tw.inv_se_mask j i := by
  obtain ⟨-, ⟨hul, -, -⟩, ⟨hvl, -, -⟩⟩ := h
  rintro j i ⟨-, -, hlt, -⟩
  simp [ThinWalls.d_sw, ThinWalls.d_ne, ThinWalls.d_nw, ThinWalls.d_se,
    hul, hvl, constArr] at hlt

theorem ThinWalls.inv_ne_mask_flat (tw : ThinWalls) (v : ℚ) (h : tw.flatEff v) :
    ∀ j i, ¬ tw.inv_ne_mask j i := by
  obtain ⟨-, ⟨hul, -, -⟩, ⟨hvl, -, -⟩⟩ := h
  rintro j i ⟨-, -, hlt, -⟩
  simp [ThinWalls.d_sw, ThinWalls.d_ne, ThinWalls.d_nw, ThinWalls.d_se,
    hul, hvl, constArr] at hlt

theorem ThinWalls.inv_nw_mask_flat (tw : ThinWalls) (v : ℚ) (h : tw.flatEff v) :
    ∀ j i, ¬ tw.inv_nw_mask j i := by
  obtain ⟨-, ⟨hul, -, -⟩, ⟨hvl, -, -⟩⟩ := h
  rintro j i ⟨-, -, hlt, -⟩
  simp [ThinWalls.d_sw, ThinWalls.d_ne, ThinWalls.d_nw, ThinWalls.d_se,
    hul, hvl, constArr] at hlt

theorem ThinWalls.invert_exterior_corners_flat (tw : ThinWalls) (v : ℚ)
    (h : tw.flatEff v) : (tw.invert_exterior_corners).flatEff v := by
  have hsw := tw.inv_sw_mask_flat v h
  have hse := tw.inv_se_mask_flat v h
  have hne := tw.inv_ne_mask_flat v h
  have hnw := tw.inv_nw_mask_flat v h
  obtain ⟨⟨hcl, hch, hca⟩, ⟨hul, huh, hua⟩, ⟨hvl, hvh, hva⟩⟩ := h
  refine ⟨⟨?_, ?_, ?_⟩, ⟨?_, ?_, ?_⟩, ⟨?_, ?_, ?_⟩⟩ <;>
    simp only [ThinWalls.invert_exterior_corners, vset_empty _ hsw, vset_empty _ hse,
      vset_empty _ hne, vset_empty _ hnw] <;>
    assumption

/-- Any single folding pass preserves a flat effective field. -/
theorem applyOp_flat (tw : ThinWalls) (op : FoldOp) (v : ℚ) (h : tw.flatEff v) :
    (applyOp tw op).flatEff v := by
  cases op with
  | push => exact tw.push_corners_flat true v h
  | buttress => exact tw.lower_tallest_buttress_flat v h
  | ridge => exact tw.fold_out_central_ridges_flat v h
  | invert => exact tw.invert_exterior_corners_flat v h

theorem Stats.min4_const (s : Stats) (v : ℚ) (h : s.low = constArr v) :
    s.min4 = constArr v := by
  funext j i
  simp [Stats.min4, h, constArr]

theorem Stats.max4_const (s : Stats) (v : ℚ) (h : s.hgh = constArr v) :
    s.max4 = constArr v := by
  funext j i
  simp [Stats.max4, h, constArr]

theorem Stats.mean4_const (s : Stats) (v : ℚ) (h : s.ave = constArr v) :
    s.mean4 = constArr v := by
  funext j i
  simp only [Stats.mean4, h, constArr]
  ring

theorem Stats.min2u_const (s : Stats) (v : ℚ) (h : s.low = constArr v) :
    s.min2u = constArr v := by
  funext j i
  simp [Stats.min2u, h, constArr]

theorem Stats.max2u_const (s : Stats) (v : ℚ) (h : s.hgh = constArr v) :
    s.max2u = constArr v := by
  funext j i
  simp [Stats.max2u, h, constArr]

theorem Stats.mean2u_const (s : Stats) (v : ℚ) (h : s.ave = constArr v) :
    s.mean2u = constArr v := by
  funext j i
  simp only [Stats.mean2u, h, constArr]
  ring

theorem Stats.min2v_const (s : Stats) (v : ℚ) (h : s.low = constArr v) :
    s.min2v = constArr v := by
  funext j i
  simp [Stats.min2v, h, constArr]

theorem Stats.max2v_const (s : Stats) (v : ℚ) (h : s.hgh = constArr v) :
    s.max2v = constArr v := by
  funext j i
  simp [Stats.max2v, h, constArr]

theorem Stats.mean2v_const (s : Stats) (v : ℚ) (h : s.ave = constArr v) :
    s.mean2v = constArr v := by
  funext j i
  simp only [Stats.mean2v, h, constArr]
  ring

/-- Coarsening preserves a flat effective field. -/
theorem ThinWalls.coarsen_flat (tw : ThinWalls) (v : ℚ) (h : tw.flatEff v) :
    (tw.coarsen).flatEff v := by
  obtain ⟨⟨hcl, hch, hca⟩, ⟨hul, huh, hua⟩, ⟨hvl, hvh, hva⟩⟩ := h
  exact ⟨⟨Stats.min4_const _ _ hcl, Stats.max4_const _ _ hch, Stats.mean4_const _ _ hca⟩,
    ⟨Stats.min2u_const _ _ hul, Stats.max2u_const _ _ huh, Stats.mean2u_const _ _ hua⟩,
    ⟨Stats.min2v_const _ _ hvl, Stats.max2v_const _ _ hvh, Stats.mean2v_const _ _ hva⟩⟩

/-! ### Concrete meshes used as witnesses and counterexamples -/

/-- A 2x2 mesh whose effective triples are all the constant `v`. -/
def flatTW (v : ℚ) : ThinWalls :=
  ⟨2, 2,
    ⟨(2, 2), constArr v, constArr v, constArr v⟩,
    ⟨(2, 3), constArr v, constArr v, constArr v⟩,
    ⟨(3, 2), constArr v, constArr v, constArr v⟩,
    ⟨(2, 2), constArr v, constArr v, constArr v⟩,
    ⟨(2, 3), constArr v, constArr v, constArr v⟩,
    ⟨(3, 2), constArr v, constArr v, constArr v⟩⟩

/-- A 1x1 mesh whose cell triple has distinct low/mean/high = 0/1/2. -/
def tw1 : ThinWalls :=
  { ThinWalls.mkMesh 1 1 with
    c_simple := ⟨(1, 1), constArr 0, constArr 2, constArr 1⟩ }

/-! ### C1 -/

/-- C1: the claim says `init_effective_values` copies each simple triple
field by field into the effective triple.  In the code `Stats.__copy__`
hands `mean`, `min` and `max` to `Stats.__init__`, which applies
`set_equal` three times in sequence, each call overwriting all three
arrays; the last call (`max`) wins.  On a cell triple with
low/mean/high = 0/1/2 the effective triple comes out as 2/2/2, so
effective low (2) differs from simple low (0) and effective mean (2)
differs from simple mean (1). -/
theorem C1_init_effective_values_copies_hgh_everywhere :
    (tw1.init_effective_values).map
        (fun t => (t.c_effective.low 0 0, t.c_effective.ave 0 0, t.c_effective.hgh 0 0)) =
      some (2, 2, 2) ∧
    tw1.c_simple.low 0 0 = 0 ∧ tw1.c_simple.ave 0 0 = 1 := by
  refine ⟨?_, rfl, rfl⟩
  rfl

/-! ### C10 -/

/-- C10: `ThinWalls.__copy__` populates a new mesh but has no `return`
statement, so `copy()` always returns Python `None` (the inner `none`),
for every mesh. -/
theorem C10_copy_returns_none (tw : ThinWalls) : tw.copyMethod = some none := by
  simp [ThinWalls.copyMethod, Stats.copy_eq, bind, Option.bind]

/-! ### C5 -/

/-- C5: on a mesh whose effective triples are uniformly the constant `v`,
any sequence of the four folding passes, in any order and combination,
leaves every element of every effective triple equal to `v`. -/
theorem C5_flat_field_fixed_point (v : ℚ) (ops : List FoldOp) (tw : ThinWalls)
    (h : tw.flatEff v) : (List.foldl applyOp tw ops).flatEff v := by
  induction ops generalizing tw with
  | nil => exact h
  | cons op rest ih =>
    exact ih _ (applyOp_flat tw op v h)

/-- Witness for C5 at the flat mesh of value 3 and one full pass sequence. -/
theorem C5_flat_field_fixed_point_witness :
    (List.foldl applyOp (flatTW 3)
      [FoldOp.push, FoldOp.buttress, FoldOp.ridge, FoldOp.invert]).flatEff 3 :=
  C5_flat_field_fixed_point 3 _ _
    ⟨⟨rfl, rfl, rfl⟩, ⟨rfl, rfl, rfl⟩, ⟨rfl, rfl, rfl⟩⟩

/-! ### C7 -/

/-- C7 counterexample: a freshly constructed mesh has zero-filled
effective triples, and invoking a folding pass or `coarsen` on it does not
fail: it executes and returns a well-defined mesh whose effective data is
still the zero field (the code performs no precondition check). -/
theorem C7_fresh_mesh_folding_executes :
    ((applyOp (ThinWalls.mkMesh 2 2) FoldOp.push).flatEff 0) ∧
    ((applyOp (ThinWalls.mkMesh 2 2) FoldOp.buttress).flatEff 0) ∧
    (((ThinWalls.mkMesh 2 2).coarsen).flatEff 0) := by
  have h : (ThinWalls.mkMesh 2 2).flatEff 0 :=
    ⟨⟨rfl, rfl, rfl⟩, ⟨rfl, rfl, rfl⟩, ⟨rfl, rfl, rfl⟩⟩
  exact ⟨applyOp_flat _ _ _ h, applyOp_flat _ _ _ h, ThinWalls.coarsen_flat _ _ h⟩

/-- C7 amended: a freshly constructed mesh has its effective (and simple)
triples zero-initialized by the constructor, so folding passes and
`coarsen` invoked before `init_effective_values` do not fail; they operate
on the zero field and return zero effective data. -/
theorem C7_fresh_mesh_amended (nj ni : ℕ) :
    ((ThinWalls.mkMesh nj ni).flatEff 0) ∧
    (∀ op, (applyOp (ThinWalls.mkMesh nj ni) op).flatEff 0) ∧
    (((ThinWalls.mkMesh nj ni).coarsen).flatEff 0) := by
  have h : (ThinWalls.mkMesh nj ni).flatEff 0 :=
    ⟨⟨rfl, rfl, rfl⟩, ⟨rfl, rfl, rfl⟩, ⟨rfl, rfl, rfl⟩⟩
  exact ⟨h, fun op => applyOp_flat _ _ _ h, ThinWalls.coarsen_flat _ _ h⟩

/-! ### C6 -/

/-- C6 amended: after `set_equal` the invariant `low ≤ mean ≤ high` holds
element-wise; after `set(min, max, mean)` it holds provided the supplied
arrays already satisfy `min ≤ mean ≤ max` element-wise — `set` itself
performs only shape validation and stores the arrays unchecked. -/
theorem C6_setters_invariant_amended (s : Stats) (v mn mx mean : Arr2) :
    (∀ t, s.set_equal v = some t →
      ∀ a b, t.low a b ≤ t.ave a b ∧ t.ave a b ≤ t.hgh a b) ∧
    ((∀ a b, mn.f a b ≤ mean.f a b ∧ mean.f a b ≤ mx.f a b) →
      ∀ t, s.set mn mx mean = some t →
        ∀ a b, t.low a b ≤ t.ave a b ∧ t.ave a b ≤ t.hgh a b) := by
  constructor
  · intro t ht a b
    unfold Stats.set_equal at ht
    split at ht
    · cases ht
      exact ⟨le_refl _, le_refl _⟩
    · cases ht
  · intro hord t ht a b
    unfold Stats.set at ht
    split at ht
    · cases ht
      exact hord a b
    · cases ht

/-- The triple stored by the C6 witness call. -/
def statGood : Stats := ⟨(1, 1), constArr 0, constArr 2, constArr 1⟩

/-- Witness for C6 at a concrete ordered `set` call. -/
theorem C6_setters_invariant_amended_witness :
    (∀ a b : ℕ, constArr 0 a b ≤ constArr 1 a b ∧ constArr 1 a b ≤ constArr 2 a b) ∧
    (∀ a b, statGood.low a b ≤ statGood.ave a b ∧ statGood.ave a b ≤ statGood.hgh a b) := by
  have hord : ∀ a b : ℕ, constArr 0 a b ≤ constArr 1 a b ∧ constArr 1 a b ≤ constArr 2 a b :=
    fun a b => by norm_num [constArr]
  exact ⟨hord,
    (C6_setters_invariant_amended (Stats.zeros (1, 1)) ⟨(1, 1), constArr 5⟩
      ⟨(1, 1), constArr 0⟩ ⟨(1, 1), constArr 2⟩ ⟨(1, 1), constArr 1⟩).2 hord statGood rfl⟩

/-- The triple stored by the C6 counterexample call. -/
def statBad : Stats := ⟨(1, 1), constArr 1, constArr 0, constArr 0⟩

/-- C6 counterexample: `set(min, max, mean)` stores its arguments without
checking `min ≤ mean ≤ max`; calling it with min = 1, max = 0, mean = 0 on
a (1,1) triple succeeds and leaves `low 0 0 = 1 > ave 0 0 = 0`. -/
theorem C6_set_violates_invariant :
    (Stats.zeros (1, 1)).set ⟨(1, 1), constArr 1⟩ ⟨(1, 1), constArr 0⟩
        ⟨(1, 1), constArr 0⟩ = some statBad ∧
    ¬ (statBad.low 0 0 ≤ statBad.ave 0 0) := by
  refine ⟨rfl, ?_⟩
  norm_num [statBad, constArr]

/-! ### C8 -/

/-- C8: every shape-checked setter fails (returns `none`, i.e. the Python
`assert` fires before any field assignment, leaving the target unchanged)
whenever a supplied array's shape disagrees with the target's shape. -/
theorem C8_setters_fail_on_shape_mismatch (s : Stats) (v mn mx mean : Arr2)
    (tw : ThinWalls) (d du dv : Arr2) :
    (v.shape ≠ s.shape → s.set_equal v = none) ∧
    (¬ (mn.shape = s.shape ∧ mx.shape = s.shape ∧ mean.shape = s.shape) →
      s.set mn mx mean = none) ∧
    (d.shape ≠ tw.shape → tw.set_cell_mean d = none) ∧
    (¬ (du.shape = tw.shapeu ∧ dv.shape = tw.shapev) →
      tw.set_edge_mean du dv = none) := by
  refine ⟨fun h => ?_, fun h => ?_, fun h => ?_, fun h => ?_⟩
  · unfold Stats.set_equal
    rw [if_neg h]
  · unfold Stats.set
    rw [if_neg h]
  · unfold ThinWalls.set_cell_mean
    rw [if_neg h]
  · unfold ThinWalls.set_edge_mean
    rw [if_neg h]

/-- Witness for C8 at concrete mismatched shapes. -/
theorem C8_setters_fail_on_shape_mismatch_witness :
    ((⟨(2, 2), constArr 0⟩ : Arr2).shape ≠ (Stats.zeros (1, 1)).shape) ∧
    (Stats.zeros (1, 1)).set_equal ⟨(2, 2), constArr 0⟩ = none ∧
    (ThinWalls.mkMesh 1 1).set_cell_mean ⟨(3, 3), constArr 0⟩ = none := by
  have h1 : ((⟨(2, 2), constArr 0⟩ : Arr2) : Arr2).shape ≠ (Stats.zeros (1, 1)).shape := by
    decide
  have h3 : ((⟨(3, 3), constArr 0⟩ : Arr2) : Arr2).shape ≠ (ThinWalls.mkMesh 1 1).shape := by
    decide
  exact ⟨h1,
    (C8_setters_fail_on_shape_mismatch (Stats.zeros (1, 1)) ⟨(2, 2), constArr 0⟩
      ⟨(1, 1), constArr 0⟩ ⟨(1, 1), constArr 0⟩ ⟨(1, 1), constArr 0⟩
      (ThinWalls.mkMesh 1 1) ⟨(3, 3), constArr 0⟩ ⟨(1, 1), constArr 0⟩
      ⟨(1, 1), constArr 0⟩).1 h1,
    (C8_setters_fail_on_shape_mismatch (Stats.zeros (1, 1)) ⟨(2, 2), constArr 0⟩
      ⟨(1, 1), constArr 0⟩ ⟨(1, 1), constArr 0⟩ ⟨(1, 1), constArr 0⟩
      (ThinWalls.mkMesh 1 1) ⟨(3, 3), constArr 0⟩ ⟨(1, 1), constArr 0⟩
      ⟨(1, 1), constArr 0⟩).2.2.1 h3⟩

/-! ### C9 -/

/-- C9: `coarsen` on a fine mesh with `nj = 2m`, `ni = 2n` produces a mesh
with centre shape `(m,n)`, u-edge shape `(m,n+1)`, v-edge shape `(m+1,n)`,
whose six triples are, element by element, the 2x2-block min/mean/max of
the centre triples and the pairwise 2u/2v reductions of the edge triples.
(The fine mesh is untouched: `coarsen` is a pure function of it here, as
in the source, which allocates fresh arrays for every reduced field.) -/
theorem C9_coarsen_block_reduction (tw : ThinWalls) (m n : ℕ)
    (hj : tw.nj = 2 * m) (hi : tw.ni = 2 * n) :
    (tw.coarsen.nj = m ∧ tw.coarsen.ni = n ∧
     tw.coarsen.c_simple.shape = (m, n) ∧ tw.coarsen.u_simple.shape = (m, n + 1) ∧
     tw.coarsen.v_simple.shape = (m + 1, n) ∧ tw.coarsen.c_effective.shape = (m, n) ∧
     tw.coarsen.u_effective.shape = (m, n + 1) ∧ tw.coarsen.v_effective.shape = (m + 1, n)) ∧
    (∀ j i,
      (tw.coarsen.c_simple.low j i =
        min (min (tw.c_simple.low (2 * j) (2 * i)) (tw.c_simple.low (2 * j + 1) (2 * i + 1)))
          (min (tw.c_simple.low (2 * j) (2 * i + 1)) (tw.c_simple.low (2 * j + 1) (2 * i))) ∧
       tw.coarsen.c_simple.hgh j i =
        max (max (tw.c_simple.hgh (2 * j) (2 * i)) (tw.c_simple.hgh (2 * j + 1) (2 * i + 1)))
          (max (tw.c_simple.hgh (2 * j) (2 * i + 1)) (tw.c_simple.hgh (2 * j + 1) (2 * i))) ∧
       tw.coarsen.c_simple.ave j i =
        (1 / 4 : ℚ) * ((tw.c_simple.ave (2 * j) (2 * i) + tw.c_simple.ave (2 * j + 1) (2 * i + 1)) +
          (tw.c_simple.ave (2 * j) (2 * i + 1) + tw.c_simple.ave (2 * j + 1) (2 * i)))) ∧
      (tw.coarsen.u_simple.low j i =
        min (tw.u_simple.low (2 * j) (2 * i)) (tw.u_simple.low (2 * j + 1) (2 * i)) ∧
       tw.coarsen.u_simple.hgh j i =
        max (tw.u_simple.hgh (2 * j) (2 * i)) (tw.u_simple.hgh (2 * j + 1) (2 * i)) ∧
       tw.coarsen.u_simple.ave j i =
        (1 / 2 : ℚ) * (tw.u_simple.ave (2 * j) (2 * i) + tw.u_simple.ave (2 * j + 1) (2 * i))) ∧
      (tw.coarsen.v_simple.low j i =
        min (tw.v_simple.low (2 * j) (2 * i)) (tw.v_simple.low (2 * j) (2 * i + 1)) ∧
       tw.coarsen.v_simple.hgh j i =
        max (tw.v_simple.hgh (2 * j) (2 * i)) (tw.v_simple.hgh (2 * j) (2 * i + 1)) ∧
       tw.coarsen.v_simple.ave j i =
        (1 / 2 : ℚ) * (tw.v_simple.ave (2 * j) (2 * i) + tw.v_simple.ave (2 * j) (2 * i + 1))) ∧
      (tw.coarsen.c_effective.low j i =
        min (min (tw.c_effective.low (2 * j) (2 * i)) (tw.c_effective.low (2 * j + 1) (2 * i + 1)))
          (min (tw.c_effective.low (2 * j) (2 * i + 1)) (tw.c_effective.low (2 * j + 1) (2 * i))) ∧
       tw.coarsen.c_effective.hgh j i =
        max (max (tw.c_effective.hgh (2 * j) (2 * i)) (tw.c_effective.hgh (2 * j + 1) (2 * i + 1)))
          (max (tw.c_effective.hgh (2 * j) (2 * i + 1)) (tw.c_effective.hgh (2 * j + 1) (2 * i))) ∧
       tw.coarsen.c_effective.ave j i =
        (1 / 4 : ℚ) * ((tw.c_effective.ave (2 * j) (2 * i) + tw.c_effective.ave (2 * j + 1) (2 * i + 1)) +
          (tw.c_effective.ave (2 * j) (2 * i + 1) + tw.c_effective.ave (2 * j + 1) (2 * i)))) ∧
      (tw.coarsen.u_effective.low j i =
        min (tw.u_effective.low (2 * j) (2 * i)) (tw.u_effective.low (2 * j + 1) (2 * i)) ∧
       tw.coarsen.u_effective.hgh j i =
        max (tw.u_effective.hgh (2 * j) (2 * i)) (tw.u_effective.hgh (2 * j + 1) (2 * i)) ∧
       tw.coarsen.u_effective.ave j i =
        (1 / 2 : ℚ) * (tw.u_effective.ave (2 * j) (2 * i) + tw.u_effective.ave (2 * j + 1) (2 * i))) ∧
      (tw.coarsen.v_effective.low j i =
        min (tw.v_effective.low (2 * j) (2 * i)) (tw.v_effective.low (2 * j) (2 * i + 1)) ∧
       tw.coarsen.v_effective.hgh j i =
        max (tw.v_effective.hgh (2 * j) (2 * i)) (tw.v_effective.hgh (2 * j) (2 * i + 1)) ∧
       tw.coarsen.v_effective.ave j i =
        (1 / 2 : ℚ) * (tw.v_effective.ave (2 * j) (2 * i) + tw.v_effective.ave (2 * j) (2 * i + 1)))) := by
  constructor
  · refine ⟨?_, ?_, ?_, ?_, ?_, ?_, ?_, ?_⟩ <;>
      simp [ThinWalls.coarsen, ThinWalls.mkMesh, Stats.zeros, Prod.ext_iff] <;>
      omega
  · intro j i
    exact ⟨⟨rfl, rfl, rfl⟩, ⟨rfl, rfl, rfl⟩, ⟨rfl, rfl, rfl⟩,
      ⟨rfl, rfl, rfl⟩, ⟨rfl, rfl, rfl⟩, ⟨rfl, rfl, rfl⟩⟩

/-- Witness for C9 at a concrete 2x2 mesh. -/
theorem C9_coarsen_block_reduction_witness :
    (ThinWalls.mkMesh 2 2).nj = 2 * 1 ∧ (ThinWalls.mkMesh 2 2).coarsen.nj = 1 ∧
    (ThinWalls.mkMesh 2 2).coarsen.u_simple.shape = (1, 2) := by
  refine ⟨rfl, ?_, ?_⟩
  · exact (C9_coarsen_block_reduction (ThinWalls.mkMesh 2 2) 1 1 rfl rfl).1.1
  · exact (C9_coarsen_block_reduction (ThinWalls.mkMesh 2 2) 1 1 rfl rfl).1.2.2.2.1

/-! ### C2 -/

/-- u-edge low values for the C2 counterexample mesh. -/
def arrU2low : ℕ → ℕ → ℚ := fun a b =>
  if a = 0 ∧ b = 1 then 10 else if a = 1 ∧ b = 1 then 5 else 0

/-- v-edge low values for the C2 counterexample mesh. -/
def arrV2low : ℕ → ℕ → ℚ := fun a b =>
  if a = 1 ∧ b = 0 then 10 else if a = 1 ∧ b = 1 then 5 else 0

/-- u-edge high values for the C2 counterexample mesh. -/
def arrU2hgh : ℕ → ℕ → ℚ := fun a b => if a = 0 ∧ b = 1 then 20 else 0

/-- cell low values for the C2 counterexample mesh. -/
def arrC2low : ℕ → ℕ → ℚ := fun a b => if a = 0 ∧ b = 0 then 7 else 0

/-- A 2x2 mesh whose single coarse block satisfies the SW-corner condition
(sill 10 > opposing ridge 5) while the interior diagonal u-wall carries
high 20 and the SW cell low is 7. -/
def tw2 : ThinWalls :=
  ⟨2, 2, Stats.zeros (2, 2), Stats.zeros (2, 3), Stats.zeros (3, 2),
    ⟨(2, 2), arrC2low, constArr 0, constArr 0⟩,
    ⟨(2, 3), arrU2low, arrU2hgh, constArr 0⟩,
    ⟨(3, 2), arrV2low, constArr 0, constArr 0⟩⟩

/-- C2 counterexample: on `tw2` the SW condition holds at block (0,0),
yet `push_corners_sw` (with its default `update_interior_mean_max=True`)
*decreases* the high value of the interior diagonal u-wall at (0,1) from
20 down to the opposing ridge 5, and it also *lowers* (not raises) the SW
cell's low value from 7 to 5.  This refutes both the "raises" phrasing and
the "never decreases any wall's high value" clause of the claim. -/
theorem C2_push_corners_sw_lowers_interior_high :
    tw2.sw_mask 0 0 ∧
    (tw2.push_corners_sw true).u_effective.hgh 0 1 < tw2.u_effective.hgh 0 1 ∧
    (tw2.push_corners_sw true).c_effective.low 0 0 < tw2.c_effective.low 0 0 := by
  refine ⟨by decide, by decide, by decide⟩

/-- C2 amended: where the SW sill strictly exceeds the opposing NE ridge,
`push_corners_sw` *sets* (not necessarily raises) the SW cell's low value
to the opposing ridge; and the high values of the u/v walls never decrease
*except* at the two interior diagonal walls of a triggered block — the
u-wall at `(2j, 2i+1)` and the v-wall at `(2j+1, 2i)` — which the default
`update_interior_mean_max=True` branch overwrites with the opposing ridge
(a quantity computed from low values). -/
theorem C2_push_corners_sw_amended (tw : ThinWalls) (j i : ℕ) :
    (tw.sw_mask j i →
      (tw.push_corners_sw true).c_effective.low (2 * j) (2 * i) = tw.sw_opp_ridge j i) ∧
    (∀ a b, ¬ (a % 2 = 0 ∧ b % 2 = 1 ∧ tw.sw_mask (a / 2) (b / 2)) →
      tw.u_effective.hgh a b ≤ (tw.push_corners_sw true).u_effective.hgh a b) ∧
    (∀ a b, ¬ (a % 2 = 1 ∧ b % 2 = 0 ∧ tw.sw_mask (a / 2) (b / 2)) →
      tw.v_effective.hgh a b ≤ (tw.push_corners_sw true).v_effective.hgh a b) := by
  refine ⟨?_, ?_, ?_⟩
  · intro h
    simp only [ThinWalls.push_corners_sw, vset, Nat.sub_zero]
    have e1 : 2 * j / 2 = j := by omega
    have e2 : 2 * i / 2 = i := by omega
    simp only [e1, e2]
    rw [if_pos ⟨Nat.zero_le _, Nat.zero_le _, by omega, by omega, h⟩]
  · intro a b hex
    simp only [ThinWalls.push_corners_sw, Bool.cond_true, vset, Nat.sub_zero]
    split_ifs with h1 h2
    · exfalso
      obtain ⟨-, hb1, ha2, hb2, hm⟩ := h1
      have eb : (b - 1) / 2 = b / 2 := by omega
      rw [eb] at hm
      exact hex ⟨by omega, by omega, hm⟩
    · obtain ⟨-, -, ha2, hb2, -⟩ := h2
      have ea : 2 * (a / 2) = a := by omega
      have eb : 2 * (b / 2) = b := by omega
      rw [ea, eb]
      exact le_max_left _ _
    · exact le_refl _
  · intro a b hex
    simp only [ThinWalls.push_corners_sw, Bool.cond_true, vset, Nat.sub_zero]
    split_ifs with h1 h2
    · exfalso
      obtain ⟨ha1, -, ha2, hb2, hm⟩ := h1
      have ea : (a - 1) / 2 = a / 2 := by omega
      rw [ea] at hm
      exact hex ⟨by omega, by omega, hm⟩
    · obtain ⟨-, -, ha2, hb2, -⟩ := h2
      have ea : 2 * (a / 2) = a := by omega
      have eb : 2 * (b / 2) = b := by omega
      rw [ea, eb]
      exact le_max_left _ _
    · exact le_refl _

/-- Witness for C2 amended at the concrete mesh `tw2` and block (0,0). -/
theorem C2_push_corners_sw_amended_witness :
    tw2.sw_mask 0 0 ∧
    (tw2.push_corners_sw true).c_effective.low 0 0 = tw2.sw_opp_ridge 0 0 ∧
    tw2.v_effective.hgh 0 0 ≤ (tw2.push_corners_sw true).v_effective.hgh 0 0 :=
  ⟨by decide, (C2_push_corners_sw_amended tw2 0 0).1 (by decide),
    (C2_push_corners_sw_amended tw2 0 0).2.2 0 0 (by decide)⟩

/-! ### C4: lemmas about the four buttress-lowering passes -/

theorem bpassS_sel (m n : ℕ) (U V : ℕ → ℕ → ℚ) (j i : ℕ) (hj : j < m) (hi : i < n)
    (h : oppo3S U V j i < U (2 * j) (2 * i + 1)) :
    bpassS m n U V (2 * j) (2 * i + 1) = oppo3S U V j i :=
  vset_at 0 1 _ _ U j i ⟨hj, hi, h⟩

theorem bpassS_nsel (m n : ℕ) (U V : ℕ → ℕ → ℚ) (j i : ℕ)
    (h : ¬ (oppo3S U V j i < U (2 * j) (2 * i + 1))) :
    bpassS m n U V (2 * j) (2 * i + 1) = U (2 * j) (2 * i + 1) := by
  apply vset_not
  rintro ⟨-, -, -, -, hm⟩
  have ej : (2 * j - 0) / 2 = j := by omega
  have ei : (2 * i + 1 - 1) / 2 = i := by omega
  rw [ej, ei] at hm
  exact h hm.2.2

theorem bpassS_odd (m n : ℕ) (U V : ℕ → ℕ → ℚ) (a b : ℕ)
    (hpar : ¬ (a % 2 = 0 ∧ b % 2 = 1)) : bpassS m n U V a b = U a b := by
  apply vset_not
  rintro ⟨h1, h2, h3, h4, -⟩
  exact hpar ⟨by omega, by omega⟩

theorem bpassN_sel (m n : ℕ) (U V : ℕ → ℕ → ℚ) (j i : ℕ) (hj : j < m) (hi : i < n)
    (h : oppo3N U V j i < U (2 * j + 1) (2 * i + 1)) :
    bpassN m n U V (2 * j + 1) (2 * i + 1) = oppo3N U V j i :=
  vset_at 1 1 _ _ U j i ⟨hj, hi, h⟩

theorem bpassN_nsel (m n : ℕ) (U V : ℕ → ℕ → ℚ) (j i : ℕ)
    (h : ¬ (oppo3N U V j i < U (2 * j + 1) (2 * i + 1))) :
    bpassN m n U V (2 * j + 1) (2 * i + 1) = U (2 * j + 1) (2 * i + 1) := by
  apply vset_not
  rintro ⟨-, -, -, -, hm⟩
  have ej : (2 * j + 1 - 1) / 2 = j := by omega
  have ei : (2 * i + 1 - 1) / 2 = i := by omega
  rw [ej, ei] at hm
  exact h hm.2.2

theorem bpassN_even (m n : ℕ) (U V : ℕ → ℕ → ℚ) (a b : ℕ)
    (hpar : ¬ (a % 2 = 1 ∧ b % 2 = 1)) : bpassN m n U V a b = U a b := by
  apply vset_not
  rintro ⟨h1, h2, h3, h4, -⟩
  exact hpar ⟨by omega, by omega⟩

theorem bpassW_sel (m n : ℕ) (U V : ℕ → ℕ → ℚ) (j i : ℕ) (hj : j < m) (hi : i < n)
    (h : oppo3W U V j i < V (2 * j + 1) (2 * i)) :
    bpassW m n U V (2 * j + 1) (2 * i) = oppo3W U V j i :=
  vset_at 1 0 _ _ V j i ⟨hj, hi, h⟩

theorem bpassW_nsel (m n : ℕ) (U V : ℕ → ℕ → ℚ) (j i : ℕ)
    (h : ¬ (oppo3W U V j i < V (2 * j + 1) (2 * i))) :
    bpassW m n U V (2 * j + 1) (2 * i) = V (2 * j + 1) (2 * i) := by
  apply vset_not
  rintro ⟨-, -, -, -, hm⟩
  have ej : (2 * j + 1 - 1) / 2 = j := by omega
  have ei : (2 * i - 0) / 2 = i := by omega
  rw [ej, ei] at hm
  exact h hm.2.2

theorem bpassW_odd (m n : ℕ) (U V : ℕ → ℕ → ℚ) (a b : ℕ)
    (hpar : ¬ (a % 2 = 1 ∧ b % 2 = 0)) : bpassW m n U V a b = V a b := by
  apply vset_not
  rintro ⟨h1, h2, h3, h4, -⟩
  exact hpar ⟨by omega, by omega⟩

theorem bpassE_sel (m n : ℕ) (U V : ℕ → ℕ → ℚ) (j i : ℕ) (hj : j < m) (hi : i < n)
    (h : oppo3E U V j i < V (2 * j + 1) (2 * i + 1)) :
    bpassE m n U V (2 * j + 1) (2 * i + 1) = oppo3E U V j i :=
  vset_at 1 1 _ _ V j i ⟨hj, hi, h⟩

theorem bpassE_nsel (m n : ℕ) (U V : ℕ → ℕ → ℚ) (j i : ℕ)
    (h : ¬ (oppo3E U V j i < V (2 * j + 1) (2 * i + 1))) :
    bpassE m n U V (2 * j + 1) (2 * i + 1) = V (2 * j + 1) (2 * i + 1) := by
  apply vset_not
  rintro ⟨-, -, -, -, hm⟩
  have ej : (2 * j + 1 - 1) / 2 = j := by omega
  have ei : (2 * i + 1 - 1) / 2 = i := by omega
  rw [ej, ei] at hm
  exact h hm.2.2

theorem bpassE_even (m n : ℕ) (U V : ℕ → ℕ → ℚ) (a b : ℕ)
    (hpar : ¬ (a % 2 = 1 ∧ b % 2 = 1)) : bpassE m n U V a b = V a b := by
  apply vset_not
  rintro ⟨h1, h2, h3, h4, -⟩
  exact hpar ⟨by omega, by omega⟩

/-- No pass ever raises a value. -/
theorem buttress_pass_le (m n : ℕ) (U V : ℕ → ℕ → ℚ) (a b : ℕ) :
    (buttress_pass m n U V).1 a b ≤ U a b ∧ (buttress_pass m n U V).2 a b ≤ V a b := by
  have hS : ∀ x y, bpassS m n U V x y ≤ U x y :=
    vset_le_self 0 1 _ _ U (fun j i hm => le_of_lt hm.2.2)
  have hN : ∀ x y, bpassN m n (bpassS m n U V) V x y ≤ bpassS m n U V x y :=
    vset_le_self 1 1 _ _ _ (fun j i hm => le_of_lt hm.2.2)
  have hW : ∀ x y, bpassW m n (bpassN m n (bpassS m n U V) V) V x y ≤ V x y :=
    vset_le_self 1 0 _ _ V (fun j i hm => le_of_lt hm.2.2)
  have hE : ∀ x y,
      bpassE m n (bpassN m n (bpassS m n U V) V)
        (bpassW m n (bpassN m n (bpassS m n U V) V) V) x y ≤
      bpassW m n (bpassN m n (bpassS m n U V) V) V x y :=
    vset_le_self 1 1 _ _ _ (fun j i hm => le_of_lt hm.2.2)
  exact ⟨le_trans (hN a b) (hS a b), le_trans (hE a b) (hW a b)⟩

/-- A strictly dominant S segment is lowered exactly to the maximum of its
three competitors. -/
theorem buttress_pass_domS (m n : ℕ) (U V : ℕ → ℕ → ℚ) (j i : ℕ)
    (hj : j < m) (hi : i < n) (h : oppo3S U V j i < U (2 * j) (2 * i + 1)) :
    (buttress_pass m n U V).1 (2 * j) (2 * i + 1) = oppo3S U V j i := by
  show bpassN m n (bpassS m n U V) V (2 * j) (2 * i + 1) = _
  rw [bpassN_even m n _ V (2 * j) (2 * i + 1) (by omega)]
  exact bpassS_sel m n U V j i hj hi h

/-- A strictly dominant N segment is lowered exactly to the maximum of its
three competitors. -/
theorem buttress_pass_domN (m n : ℕ) (U V : ℕ → ℕ → ℚ) (j i : ℕ)
    (hj : j < m) (hi : i < n) (h : oppo3N U V j i < U (2 * j + 1) (2 * i + 1)) :
    (buttress_pass m n U V).1 (2 * j + 1) (2 * i + 1) = oppo3N U V j i := by
  have l1 : U (2 * j + 1) (2 * i + 1) ≤ oppo3S U V j i := le_max_left _ _
  have l2 : U (2 * j) (2 * i + 1) ≤ oppo3N U V j i := le_max_left _ _
  have hS : bpassS m n U V (2 * j) (2 * i + 1) = U (2 * j) (2 * i + 1) :=
    bpassS_nsel m n U V j i (by intro hc; linarith)
  have hSodd : bpassS m n U V (2 * j + 1) (2 * i + 1) = U (2 * j + 1) (2 * i + 1) :=
    bpassS_odd m n U V _ _ (by omega)
  have hopp : oppo3N (bpassS m n U V) V j i = oppo3N U V j i := by
    unfold oppo3N
    rw [hS]
  show bpassN m n (bpassS m n U V) V (2 * j + 1) (2 * i + 1) = _
  rw [bpassN_sel m n _ V j i hj hi (by rw [hSodd, hopp]; exact h), hopp]

/-- A strictly dominant W segment is lowered exactly to the maximum of its
three competitors. -/
theorem buttress_pass_domW (m n : ℕ) (U V : ℕ → ℕ → ℚ) (j i : ℕ)
    (hj : j < m) (hi : i < n) (h : oppo3W U V j i < V (2 * j + 1) (2 * i)) :
    (buttress_pass m n U V).2 (2 * j + 1) (2 * i) = oppo3W U V j i := by
  have l1 : U (2 * j) (2 * i + 1) ≤ oppo3W U V j i :=
    le_trans (le_max_left _ _) (le_max_right _ _)
  have l2 : U (2 * j + 1) (2 * i + 1) ≤ oppo3W U V j i :=
    le_trans (le_max_right _ _) (le_max_right _ _)
  have l3 : V (2 * j + 1) (2 * i) ≤ oppo3S U V j i :=
    le_trans (le_max_left _ _) (le_max_right _ _)
  have l4 : V (2 * j + 1) (2 * i) ≤ oppo3N U V j i :=
    le_trans (le_max_left _ _) (le_max_right _ _)
  have hS : bpassS m n U V (2 * j) (2 * i + 1) = U (2 * j) (2 * i + 1) :=
    bpassS_nsel m n U V j i (by intro hc; linarith)
  have hSodd : bpassS m n U V (2 * j + 1) (2 * i + 1) = U (2 * j + 1) (2 * i + 1) :=
    bpassS_odd m n U V _ _ (by omega)
  have hoppN : oppo3N (bpassS m n U V) V j i = oppo3N U V j i := by
    unfold oppo3N
    rw [hS]
  have hN : bpassN m n (bpassS m n U V) V (2 * j + 1) (2 * i + 1) =
      U (2 * j + 1) (2 * i + 1) := by
    rw [bpassN_nsel m n _ V j i (by rw [hSodd, hoppN]; intro hc; linarith), hSodd]
  have hNS : bpassN m n (bpassS m n U V) V (2 * j) (2 * i + 1) =
      U (2 * j) (2 * i + 1) := by
    rw [bpassN_even m n _ V (2 * j) (2 * i + 1) (by omega), hS]
  have hoppW : oppo3W (bpassN m n (bpassS m n U V) V) V j i = oppo3W U V j i := by
    unfold oppo3W
    rw [hN, hNS]
  show bpassE m n (bpassN m n (bpassS m n U V) V)
      (bpassW m n (bpassN m n (bpassS m n U V) V) V) (2 * j + 1) (2 * i) = _
  rw [bpassE_even m n _ _ (2 * j + 1) (2 * i) (by omega)]
  rw [bpassW_sel m n _ V j i hj hi (by rw [hoppW]; exact h), hoppW]

/-- A strictly dominant E segment is lowered exactly to the maximum of its
three competitors. -/
theorem buttress_pass_domE (m n : ℕ) (U V : ℕ → ℕ → ℚ) (j i : ℕ)
    (hj : j < m) (hi : i < n) (h : oppo3E U V j i < V (2 * j + 1) (2 * i + 1)) :
    (buttress_pass m n U V).2 (2 * j + 1) (2 * i + 1) = oppo3E U V j i := by
  have l1 : U (2 * j) (2 * i + 1) ≤ oppo3E U V j i :=
    le_trans (le_max_left _ _) (le_max_right _ _)
  have l2 : U (2 * j + 1) (2 * i + 1) ≤ oppo3E U V j i :=
    le_trans (le_max_right _ _) (le_max_right _ _)
  have l3 : V (2 * j + 1) (2 * i) ≤ oppo3E U V j i := le_max_left _ _
  have l4 : V (2 * j + 1) (2 * i + 1) ≤ oppo3S U V j i :=
    le_trans (le_max_right _ _) (le_max_right _ _)
  have l5 : V (2 * j + 1) (2 * i + 1) ≤ oppo3N U V j i :=
    le_trans (le_max_right _ _) (le_max_right _ _)
  have l6 : V (2 * j + 1) (2 * i + 1) ≤ oppo3W U V j i := le_max_left _ _
  have hS : bpassS m n U V (2 * j) (2 * i + 1) = U (2 * j) (2 * i + 1) :=
    bpassS_nsel m n U V j i (by intro hc; linarith)
  have hSodd : bpassS m n U V (2 * j + 1) (2 * i + 1) = U (2 * j + 1) (2 * i + 1) :=
    bpassS_odd m n U V _ _ (by omega)
  have hoppN : oppo3N (bpassS m n U V) V j i = oppo3N U V j i := by
    unfold oppo3N
    rw [hS]
  have hN : bpassN m n (bpassS m n U V) V (2 * j + 1) (2 * i + 1) =
      U (2 * j + 1) (2 * i + 1) := by
    rw [bpassN_nsel m n _ V j i (by rw [hSodd, hoppN]; intro hc; linarith), hSodd]
  have hNS : bpassN m n (bpassS m n U V) V (2 * j) (2 * i + 1) =
      U (2 * j) (2 * i + 1) := by
    rw [bpassN_even m n _ V (2 * j) (2 * i + 1) (by omega), hS]
  have hoppW : oppo3W (bpassN m n (bpassS m n U V) V) V j i = oppo3W U V j i := by
    unfold oppo3W
    rw [hN, hNS]
  have hW : bpassW m n (bpassN m n (bpassS m n U V) V) V (2 * j + 1) (2 * i) =
      V (2 * j + 1) (2 * i) :=
    bpassW_nsel m n _ V j i (by rw [hoppW]; intro hc; linarith)
  have hWodd : bpassW m n (bpassN m n (bpassS m n U V) V) V (2 * j + 1) (2 * i + 1) =
      V (2 * j + 1) (2 * i + 1) :=
    bpassW_odd m n _ V _ _ (by omega)
  have hoppE : oppo3E (bpassN m n (bpassS m n U V) V)
      (bpassW m n (bpassN m n (bpassS m n U V) V) V) j i = oppo3E U V j i := by
    unfold oppo3E
    rw [hW, hN, hNS]
  show bpassE m n (bpassN m n (bpassS m n U V) V)
      (bpassW m n (bpassN m n (bpassS m n U V) V) V) (2 * j + 1) (2 * i + 1) = _
  rw [bpassE_sel m n _ _ j i hj hi (by rw [hWodd, hoppE]; exact h), hoppE]

/-- When the four competing segments at a node are all equal, the pass
leaves all four untouched. -/
theorem buttress_pass_noop (m n : ℕ) (U V : ℕ → ℕ → ℚ) (j i : ℕ)
    (h1 : U (2 * j + 1) (2 * i + 1) = U (2 * j) (2 * i + 1))
    (h2 : V (2 * j + 1) (2 * i) = U (2 * j) (2 * i + 1))
    (h3 : V (2 * j + 1) (2 * i + 1) = U (2 * j) (2 * i + 1)) :
    (buttress_pass m n U V).1 (2 * j) (2 * i + 1) = U (2 * j) (2 * i + 1) ∧
    (buttress_pass m n U V).1 (2 * j + 1) (2 * i + 1) = U (2 * j + 1) (2 * i + 1) ∧
    (buttress_pass m n U V).2 (2 * j + 1) (2 * i) = V (2 * j + 1) (2 * i) ∧
    (buttress_pass m n U V).2 (2 * j + 1) (2 * i + 1) = V (2 * j + 1) (2 * i + 1) := by
  have e1 : oppo3S U V j i = U (2 * j) (2 * i + 1) := by
    unfold oppo3S
    rw [h1, h2, h3]
    simp
  have e2 : oppo3N U V j i = U (2 * j) (2 * i + 1) := by
    unfold oppo3N
    rw [h2, h3]
    simp
  have hS : bpassS m n U V (2 * j) (2 * i + 1) = U (2 * j) (2 * i + 1) :=
    bpassS_nsel m n U V j i (by rw [e1]; exact lt_irrefl _)
  have hSodd : bpassS m n U V (2 * j + 1) (2 * i + 1) = U (2 * j + 1) (2 * i + 1) :=
    bpassS_odd m n U V _ _ (by omega)
  have hoppN : oppo3N (bpassS m n U V) V j i = oppo3N U V j i := by
    unfold oppo3N
    rw [hS]
  have hN : bpassN m n (bpassS m n U V) V (2 * j + 1) (2 * i + 1) =
      U (2 * j + 1) (2 * i + 1) := by
    rw [bpassN_nsel m n _ V j i (by rw [hSodd, hoppN, e2, h1]; exact lt_irrefl _), hSodd]
  have hNS : bpassN m n (bpassS m n U V) V (2 * j) (2 * i + 1) =
      U (2 * j) (2 * i + 1) := by
    rw [bpassN_even m n _ V (2 * j) (2 * i + 1) (by omega), hS]
  have hoppW : oppo3W (bpassN m n (bpassS m n U V) V) V j i = oppo3W U V j i := by
    unfold oppo3W
    rw [hN, hNS]
  have e3 : oppo3W U V j i = U (2 * j) (2 * i + 1) := by
    unfold oppo3W
    rw [h1, h3]
    simp
  have hW : bpassW m n (bpassN m n (bpassS m n U V) V) V (2 * j + 1) (2 * i) =
      V (2 * j + 1) (2 * i) :=
    bpassW_nsel m n _ V j i (by rw [hoppW, e3, h2]; exact lt_irrefl _)
  have hWodd : bpassW m n (bpassN m n (bpassS m n U V) V) V (2 * j + 1) (2 * i + 1) =
      V (2 * j + 1) (2 * i + 1) :=
    bpassW_odd m n _ V _ _ (by omega)
  have hoppE : oppo3E (bpassN m n (bpassS m n U V) V)
      (bpassW m n (bpassN m n (bpassS m n U V) V) V) j i = oppo3E U V j i := by
    unfold oppo3E
    rw [hW, hN, hNS]
  have e4 : oppo3E U V j i = U (2 * j) (2 * i + 1) := by
    unfold oppo3E
    rw [h1, h2]
    simp
  have hE : bpassE m n (bpassN m n (bpassS m n U V) V)
      (bpassW m n (bpassN m n (bpassS m n U V) V) V) (2 * j + 1) (2 * i + 1) =
      V (2 * j + 1) (2 * i + 1) := by
    rw [bpassE_nsel m n _ _ j i (by rw [hWodd, hoppE, e4, h3]; exact lt_irrefl _), hWodd]
  have hEW : bpassE m n (bpassN m n (bpassS m n U V) V)
      (bpassW m n (bpassN m n (bpassS m n U V) V) V) (2 * j + 1) (2 * i) =
      V (2 * j + 1) (2 * i) := by
    rw [bpassE_even m n _ _ (2 * j + 1) (2 * i) (by omega), hW]
  exact ⟨hNS, hN, hEW, hE⟩

/-- C4: `lower_tallest_buttress` (i) touches only the `low` and `ave`
arrays of the effective edge triples — the cell triple and the `hgh`
arrays are returned unchanged; (ii) never raises any value; (iii) where
one of the four interior wall segments around a coarse block's central
node is strictly taller than the maximum of the other three (its `oppo3`),
it is lowered exactly to that maximum, for each of the four directions and
for the `low` and `ave` arrays alike; (iv) a block whose four competing
segments are equal (in `low` and in `ave`) is left untouched. -/
theorem C4_lower_tallest_buttress_spec (tw : ThinWalls) (j i a b : ℕ) :
    ((tw.lower_tallest_buttress).c_effective = tw.c_effective ∧
     (tw.lower_tallest_buttress).u_effective.hgh = tw.u_effective.hgh ∧
     (tw.lower_tallest_buttress).v_effective.hgh = tw.v_effective.hgh) ∧
    ((tw.lower_tallest_buttress).u_effective.low a b ≤ tw.u_effective.low a b ∧
     (tw.lower_tallest_buttress).v_effective.low a b ≤ tw.v_effective.low a b ∧
     (tw.lower_tallest_buttress).u_effective.ave a b ≤ tw.u_effective.ave a b ∧
     (tw.lower_tallest_buttress).v_effective.ave a b ≤ tw.v_effective.ave a b) ∧
    (j < tw.nj / 2 ∧ i < tw.ni / 2 →
      ((oppo3S tw.u_effective.low tw.v_effective.low j i <
          tw.u_effective.low (2 * j) (2 * i + 1) →
        (tw.lower_tallest_buttress).u_effective.low (2 * j) (2 * i + 1) =
          oppo3S tw.u_effective.low tw.v_effective.low j i) ∧
       (oppo3N tw.u_effective.low tw.v_effective.low j i <
          tw.u_effective.low (2 * j + 1) (2 * i + 1) →
        (tw.lower_tallest_buttress).u_effective.low (2 * j + 1) (2 * i + 1) =
          oppo3N tw.u_effective.low tw.v_effective.low j i) ∧
       (oppo3W tw.u_effective.low tw.v_effective.low j i <
          tw.v_effective.low (2 * j + 1) (2 * i) →
        (tw.lower_tallest_buttress).v_effective.low (2 * j + 1) (2 * i) =
          oppo3W tw.u_effective.low tw.v_effective.low j i) ∧
       (oppo3E tw.u_effective.low tw.v_effective.low j i <
          tw.v_effective.low (2 * j + 1) (2 * i + 1) →
        (tw.lower_tallest_buttress).v_effective.low (2 * j + 1) (2 * i + 1) =
          oppo3E tw.u_effective.low tw.v_effective.low j i) ∧
       (oppo3S tw.u_effective.ave tw.v_effective.ave j i <
          tw.u_effective.ave (2 * j) (2 * i + 1) →
        (tw.lower_tallest_buttress).u_effective.ave (2 * j) (2 * i + 1) =
          oppo3S tw.u_effective.ave tw.v_effective.ave j i) ∧
       (oppo3N tw.u_effective.ave tw.v_effective.ave j i <
          tw.u_effective.ave (2 * j + 1) (2 * i + 1) →
        (tw.lower_tallest_buttress).u_effective.ave (2 * j + 1) (2 * i + 1) =
          oppo3N tw.u_effective.ave tw.v_effective.ave j i) ∧
       (oppo3W tw.u_effective.ave tw.v_effective.ave j i <
          tw.v_effective.ave (2 * j + 1) (2 * i) →
        (tw.lower_tallest_buttress).v_effective.ave (2 * j + 1) (2 * i) =
          oppo3W tw.u_effective.ave tw.v_effective.ave j i) ∧
       (oppo3E tw.u_effective.ave tw.v_effective.ave j i <
          tw.v_effective.ave (2 * j + 1) (2 * i + 1) →
        (tw.lower_tallest_buttress).v_effective.ave (2 * j + 1) (2 * i + 1) =
          oppo3E tw.u_effective.ave tw.v_effective.ave j i))) ∧
    ((tw.u_effective.low (2 * j + 1) (2 * i + 1) = tw.u_effective.low (2 * j) (2 * i + 1) ∧
      tw.v_effective.low (2 * j + 1) (2 * i) = tw.u_effective.low (2 * j) (2 * i + 1) ∧
      tw.v_effective.low (2 * j + 1) (2 * i + 1) = tw.u_effective.low (2 * j) (2 * i + 1) ∧
      tw.u_effective.ave (2 * j + 1) (2 * i + 1) = tw.u_effective.ave (2 * j) (2 * i + 1) ∧
      tw.v_effective.ave (2 * j + 1) (2 * i) = tw.u_effective.ave (2 * j) (2 * i + 1) ∧
      tw.v_effective.ave (2 * j + 1) (2 * i + 1) = tw.u_effective.ave (2 * j) (2 * i + 1)) →
     ((tw.lower_tallest_buttress).u_effective.low (2 * j) (2 * i + 1) =
        tw.u_effective.low (2 * j) (2 * i + 1) ∧
      (tw.lower_tallest_buttress).u_effective.low (2 * j + 1) (2 * i + 1) =
        tw.u_effective.low (2 * j + 1) (2 * i + 1) ∧
      (tw.lower_tallest_buttress).v_effective.low (2 * j + 1) (2 * i) =
        tw.v_effective.low (2 * j + 1) (2 * i) ∧
      (tw.lower_tallest_buttress).v_effective.low (2 * j + 1) (2 * i + 1) =
        tw.v_effective.low (2 * j + 1) (2 * i + 1) ∧
      (tw.lower_tallest_buttress).u_effective.ave (2 * j) (2 * i + 1) =
        tw.u_effective.ave (2 * j) (2 * i + 1) ∧
      (tw.lower_tallest_buttress).u_effective.ave (2 * j + 1) (2 * i + 1) =
        tw.u_effective.ave (2 * j + 1) (2 * i + 1) ∧
      (tw.lower_tallest_buttress).v_effective.ave (2 * j + 1) (2 * i) =
        tw.v_effective.ave (2 * j + 1) (2 * i) ∧
      (tw.lower_tallest_buttress).v_effective.ave (2 * j + 1) (2 * i + 1) =
        tw.v_effective.ave (2 * j + 1) (2 * i + 1))) := by
  refine ⟨⟨rfl, rfl, rfl⟩, ?_, ?_, ?_⟩
  · exact ⟨(buttress_pass_le _ _ _ _ a b).1, (buttress_pass_le _ _ _ _ a b).2,
      (buttress_pass_le _ _ _ _ a b).1, (buttress_pass_le _ _ _ _ a b).2⟩
  · rintro ⟨hj, hi⟩
    exact ⟨fun h => buttress_pass_domS _ _ _ _ j i hj hi h,
      fun h => buttress_pass_domN _ _ _ _ j i hj hi h,
      fun h => buttress_pass_domW _ _ _ _ j i hj hi h,
      fun h => buttress_pass_domE _ _ _ _ j i hj hi h,
      fun h => buttress_pass_domS _ _ _ _ j i hj hi h,
      fun h => buttress_pass_domN _ _ _ _ j i hj hi h,
      fun h => buttress_pass_domW _ _ _ _ j i hj hi h,
      fun h => buttress_pass_domE _ _ _ _ j i hj hi h⟩
  · rintro ⟨h1, h2, h3, h4, h5, h6⟩
    obtain ⟨l1, l2, l3, l4⟩ := buttress_pass_noop (tw.nj / 2) (tw.ni / 2)
      tw.u_effective.low tw.v_effective.low j i h1 h2 h3
    obtain ⟨a1, a2, a3, a4⟩ := buttress_pass_noop (tw.nj / 2) (tw.ni / 2)
      tw.u_effective.ave tw.v_effective.ave j i h4 h5 h6
    exact ⟨l1, l2, l3, l4, a1, a2, a3, a4⟩

/-- u-edge pattern for the C4 witness meshes: S segment `s`, N segment `n`. -/
def dirU (s n : ℚ) : ℕ → ℕ → ℚ := fun a b =>
  if a = 0 ∧ b = 1 then s else if a = 1 ∧ b = 1 then n else 0

/-- v-edge pattern for the C4 witness meshes: W segment `w`, E segment `e`. -/
def dirV (w e : ℚ) : ℕ → ℕ → ℚ := fun a b =>
  if a = 1 ∧ b = 0 then w else if a = 1 ∧ b = 1 then e else 0

/-- A 2x2 mesh whose single interior node has segment heights S/N/W/E
equal to `s`/`n`/`w`/`e`, in both the `low` and `ave` arrays. -/
def dirMesh (s n w e : ℚ) : ThinWalls :=
  ⟨2, 2, Stats.zeros (2, 2), Stats.zeros (2, 3), Stats.zeros (3, 2),
    Stats.zeros (2, 2),
    ⟨(2, 3), dirU s n, constArr 0, dirU s n⟩,
    ⟨(3, 2), dirV w e, constArr 0, dirV w e⟩⟩

/-- Witness for C4: each dominance direction, the ave pass and the
equal-segments no-op, each at a concrete mesh. -/
theorem C4_lower_tallest_buttress_spec_witness :
    oppo3S (dirU 10 1) (dirV 2 3) 0 0 < dirU 10 1 0 1 ∧
    ((dirMesh 10 1 2 3).lower_tallest_buttress).u_effective.low 0 1 = 3 ∧
    ((dirMesh 1 10 2 3).lower_tallest_buttress).u_effective.low 1 1 = 3 ∧
    ((dirMesh 1 2 10 3).lower_tallest_buttress).v_effective.low 1 0 = 3 ∧
    ((dirMesh 1 2 3 10).lower_tallest_buttress).v_effective.low 1 1 = 3 ∧
    ((dirMesh 10 1 2 3).lower_tallest_buttress).u_effective.ave 0 1 = 3 ∧
    ((dirMesh 4 4 4 4).lower_tallest_buttress).u_effective.low 0 1 = 4 := by
  refine ⟨by decide, ?_, ?_, ?_, ?_, ?_, ?_⟩
  · exact (((C4_lower_tallest_buttress_spec (dirMesh 10 1 2 3) 0 0 0 0).2.2.1
      ⟨by decide, by decide⟩).1 (by decide)).trans (by decide)
  · exact (((C4_lower_tallest_buttress_spec (dirMesh 1 10 2 3) 0 0 0 0).2.2.1
      ⟨by decide, by decide⟩).2.1 (by decide)).trans (by decide)
  · exact (((C4_lower_tallest_buttress_spec (dirMesh 1 2 10 3) 0 0 0 0).2.2.1
      ⟨by decide, by decide⟩).2.2.1 (by decide)).trans (by decide)
  · exact (((C4_lower_tallest_buttress_spec (dirMesh 1 2 3 10) 0 0 0 0).2.2.1
      ⟨by decide, by decide⟩).2.2.2.1 (by decide)).trans (by decide)
  · exact (((C4_lower_tallest_buttress_spec (dirMesh 10 1 2 3) 0 0 0 0).2.2.1
      ⟨by decide, by decide⟩).2.2.2.2.1 (by decide)).trans (by decide)
  · exact (((C4_lower_tallest_buttress_spec (dirMesh 4 4 4 4) 0 0 0 0).2.2.2
      (by decide)).1).trans (by decide)

/-! ### C3 -/

/-- u-edge low values for the C3 failing input. -/
def arrU3low : ℕ → ℕ → ℚ := fun a b => if a = 1 ∧ b = 0 then -10 else 0

/-- v-edge low values for the C3 failing input. -/
def arrV3low : ℕ → ℕ → ℚ := fun a b =>
  if a = 2 ∧ b = 0 then -10 else if a = 2 ∧ b = 1 then 5 else 0

/-- A 2x2 mesh whose single coarse block has NW as its strictly deepest
exterior corner (depth -10, the other corners 0, 0 and 5) with the
NW sill at 0, and whose northern outer wall east of the centre
(`V.low[2,1]`) stands at 5. -/
def tw3 : ThinWalls :=
  ⟨2, 2, Stats.zeros (2, 2), Stats.zeros (2, 3), Stats.zeros (3, 2),
    Stats.zeros (2, 2),
    ⟨(2, 3), arrU3low, constArr 0, constArr 0⟩,
    ⟨(3, 2), arrV3low, constArr 0, constArr 0⟩⟩

/-- C3: in the NW branch of `invert_exterior_corners` the write to the
outer wall `V.low[J+2,I+1]` takes `max` with `V.low[J+1,I+1]` — the
interior wall just deepened to the NW corner depth — instead of with the
destination itself (compare the symmetric SW/SE branches, lines 395/415).
On `tw3` the NW condition holds at block (0,0) and the outer wall
`V.low[2,1]` is *lowered* from 5 to 0 (= `r_ne`), although the claim (and
the symmetric code) says outer walls are only ever raised by
element-wise maximum. -/
theorem C3_invert_nw_lowers_outer_wall :
    tw3.inv_nw_mask 0 0 ∧
    tw3.v_effective.low 2 1 = 5 ∧
    (tw3.invert_exterior_corners).v_effective.low 2 1 = 0 ∧
    (tw3.invert_exterior_corners).v_effective.low 2 1 < tw3.v_effective.low 2 1 := by
  refine ⟨by decide, by decide, by decide, by decide⟩

end ThinWallTopo
